import Mathlib

/-!
Shallow embedding of the `vectordb` repository (an in-memory vector database:
libraries → documents → chunks, with cosine-similarity search), together with
proofs about its specified behavior.

Modelling conventions:
* UUIDs are modelled as natural numbers (`Id`).  The code generates fresh
  UUIDs with `uuid4()`; here the generated identifier is an explicit argument
  of each creating operation.
* `Dict[str, Any]` metadata is modelled as an association list
  `List (String × String)`; the claims only ever compare metadata wholesale.
* Python dicts keep insertion order: assignment to an existing key keeps its
  position, a new key is appended, `del` removes the key.  Each store
  (`self._store: Dict[UUID, Entity]`) always uses `entity.id` as the key, so a
  store is modelled as a `List` of entities with operations keyed by `.id`.
* Vector components are modelled as rationals (exact arithmetic in place of
  IEEE floats).  Euclidean norms involve square roots, which are irrational,
  so the embedding replaces each score by a strictly-monotone image that is
  rational: `distance_to` returns the squared distance (the code returns its
  square root) and `similarity_to` returns `sign(dot)·dot²/(sumSq a · sumSq b)`
  (the code returns `dot/(√(sumSq a)·√(sumSq b))`; composing with
  `x ↦ sign x · x²` preserves order, equality and zeroness of scores, and
  `norm = 0 ↔ sumSq = 0`).
* Python exceptions are modelled with `Except`; the `async`/locking layer is
  dropped (every claim is about sequential behavior).
-/

namespace VectorDB

/-- UUIDs are modelled as naturals. -/
abbrev Id := Nat

/-- Metadata mappings (`Dict[str, Any]`) as association lists. -/
abbrev Metadata := List (String × String)

/-- Domain model `Chunk` (src/vector_db_api/domain/models/chunk.py). -/
structure Chunk where
  id : Id
  vector : List ℚ
  metadata : Metadata
  document_id : Option Id
deriving DecidableEq, Repr

/-- Domain model `Document` (src/vector_db_api/domain/models/document.py). -/
structure Document where
  id : Id
  title : String
  content : Option String
  metadata : Metadata
  chunk_ids : List Id
  library_id : Option Id
deriving DecidableEq, Repr

/-- Domain model `Library` (src/vector_db_api/domain/models/library.py). -/
structure Library where
  id : Id
  name : String
  description : Option String
  metadata : Metadata
  document_ids : List Id
deriving DecidableEq, Repr

/-- Pydantic construction of a `Chunk`: the `validate_vector_not_empty`
field validator raises `ValueError("Vector cannot be empty")` on an empty
vector. -/
def Chunk.make (id : Id) (vector : List ℚ) (metadata : Metadata)
    (document_id : Option Id) : Except String Chunk :=
  if vector = [] then .error "Vector cannot be empty"
  else .ok { id := id, vector := vector, metadata := metadata, document_id := document_id }

/-- Dot product of two vectors (`np.dot`; `zipWith` mirrors numpy acting on
equal-length arrays — it is only used on equal-length vectors). -/
def dot (a b : List ℚ) : ℚ := (List.zipWith (· * ·) a b).sum

/-- Sum of squares of a vector; the Euclidean norm of `v` is `√(sumSq v)`,
so `norm v = 0 ↔ sumSq v = 0`. -/
def sumSq (a : List ℚ) : ℚ := dot a a

/-- Order-isomorphic rational encoding of the cosine similarity
`d / (√sa · √sb)`: its image under the strictly monotone map
`x ↦ sign x · x²`, namely `sign d · d² / (sa · sb)`. -/
def cosScore (d sa sb : ℚ) : ℚ := (if d < 0 then -1 else 1) * d ^ 2 / (sa * sb)

/-- `Chunk.distance_to` (chunk.py): raises on a dimension mismatch, else the
Euclidean distance.  Modelled as the squared distance (see module header). -/
def Chunk.distance_to (self other : Chunk) : Except String ℚ :=
  if self.vector.length ≠ other.vector.length then
    .error "Cannot calculate distance between vectors of different dimensions"
  else
    .ok (sumSq (List.zipWith (· - ·) self.vector other.vector))

/-- `Chunk.similarity_to` (chunk.py): raises on a dimension mismatch; returns
`0.0` when either vector has zero norm (`norm = 0 ↔ sumSq = 0`); otherwise the
cosine similarity, here in its order-isomorphic rational encoding. -/
def Chunk.similarity_to (self other : Chunk) : Except String ℚ :=
  if self.vector.length ≠ other.vector.length then
    .error "Cannot calculate similarity between vectors of different dimensions"
  else if sumSq self.vector = 0 ∨ sumSq other.vector = 0 then .ok 0
  else .ok (cosScore (dot self.vector other.vector) (sumSq self.vector) (sumSq other.vector))

/-- `Document.add_chunk_id`: appends only when not already a member. -/
def Document.add_chunk_id (d : Document) (chunk_id : Id) : Document :=
  if chunk_id ∈ d.chunk_ids then d
  else { d with chunk_ids := d.chunk_ids ++ [chunk_id] }

/-- `Document.remove_chunk_id`: `list.remove` removes the first occurrence
(no-op state-wise when absent). -/
def Document.remove_chunk_id (d : Document) (chunk_id : Id) : Document :=
  { d with chunk_ids := d.chunk_ids.erase chunk_id }

/-- `Library.add_document_id`: appends only when not already a member. -/
def Library.add_document_id (l : Library) (document_id : Id) : Library :=
  if document_id ∈ l.document_ids then l
  else { l with document_ids := l.document_ids ++ [document_id] }

/-- `Library.remove_document_id`: removes the first occurrence. -/
def Library.remove_document_id (l : Library) (document_id : Id) : Library :=
  { l with document_ids := l.document_ids.erase document_id }

/-! ### Python-dict primitives

Each repository `_store` is a `Dict[UUID, Entity]` whose key is always the
entity's own `id`, so it is modelled as a `List` of entities keyed by an id
projection.  Keys of a Python dict are unique; on such stores the operations
below agree with dict semantics. -/

/-- Dict assignment `store[id] = e`: replace in place if the key exists
(keeping insertion order), else append. -/
def putById (f : α → Id) : List α → α → List α
  | [], e => [e]
  | x :: t, e => if f x = f e then e :: t else x :: putById f t e

/-- Dict lookup `store.get(k)`. -/
def getById (f : α → Id) : List α → Id → Option α
  | [], _ => none
  | x :: t, k => if f x = k then some x else getById f t k

/-- Dict deletion `del store[k]` (removes every entry with that key; on a
unique-key store this is the one entry). -/
def delById (f : α → Id) (l : List α) (k : Id) : List α :=
  l.filter (fun x => f x ≠ k)

/-- The whole in-memory database: one store per entity kind
(`RepositoryContainer` in in_memory_repository.py). -/
structure DB where
  libraries : List Library
  documents : List Document
  chunks : List Chunk
deriving DecidableEq, Repr

/-- The empty initial database. -/
def DB.empty : DB := { libraries := [], documents := [], chunks := [] }

/-! ### In-memory repositories (in_memory_repository.py) -/

/-- `InMemoryLibraryRepository.create`: plain dict assignment. -/
def InMemoryLibraryRepository.create (s : List Library) (library : Library) :
    List Library × Library :=
  (putById Library.id s library, library)

/-- `InMemoryLibraryRepository.get_by_id`. -/
def InMemoryLibraryRepository.get_by_id (s : List Library) (library_id : Id) : Option Library :=
  getById Library.id s library_id

/-- `InMemoryLibraryRepository.update`: plain dict assignment. -/
def InMemoryLibraryRepository.update (s : List Library) (library : Library) :
    List Library × Library :=
  (putById Library.id s library, library)

/-- `InMemoryLibraryRepository.delete`: removes if present, returns whether. -/
def InMemoryLibraryRepository.delete (s : List Library) (library_id : Id) :
    List Library × Bool :=
  if (getById Library.id s library_id).isSome then (delById Library.id s library_id, true)
  else (s, false)

/-- `InMemoryDocumentRepository.create`. -/
def InMemoryDocumentRepository.create (s : List Document) (document : Document) :
    List Document × Document :=
  (putById Document.id s document, document)

/-- `InMemoryDocumentRepository.get_by_id`. -/
def InMemoryDocumentRepository.get_by_id (s : List Document) (document_id : Id) :
    Option Document :=
  getById Document.id s document_id

/-- `InMemoryDocumentRepository.list_by_library_id`: documents whose
`library_id` equals the given id, in store (insertion) order. -/
def InMemoryDocumentRepository.list_by_library_id (s : List Document) (library_id : Id) :
    List Document :=
  s.filter (fun doc => doc.library_id = some library_id)

/-- `InMemoryDocumentRepository.update`. -/
def InMemoryDocumentRepository.update (s : List Document) (document : Document) :
    List Document × Document :=
  (putById Document.id s document, document)

/-- `InMemoryDocumentRepository.delete`. -/
def InMemoryDocumentRepository.delete (s : List Document) (document_id : Id) :
    List Document × Bool :=
  if (getById Document.id s document_id).isSome then (delById Document.id s document_id, true)
  else (s, false)

/-- `InMemoryChunkRepository.create`. -/
def InMemoryChunkRepository.create (s : List Chunk) (chunk : Chunk) :
    List Chunk × Chunk :=
  (putById Chunk.id s chunk, chunk)

/-- `InMemoryChunkRepository.get_by_id`. -/
def InMemoryChunkRepository.get_by_id (s : List Chunk) (chunk_id : Id) : Option Chunk :=
  getById Chunk.id s chunk_id

/-- `InMemoryChunkRepository.list_by_document_id`. -/
def InMemoryChunkRepository.list_by_document_id (s : List Chunk) (document_id : Id) :
    List Chunk :=
  s.filter (fun chunk => chunk.document_id = some document_id)

/-- `InMemoryChunkRepository.list_by_library_id`: two-hop join — the chunks
whose `document_id` lies in the set of documents of the library. -/
def InMemoryChunkRepository.list_by_library_id (db : DB) (library_id : Id) : List Chunk :=
  let document_ids :=
    (InMemoryDocumentRepository.list_by_library_id db.documents library_id).map Document.id
  db.chunks.filter (fun chunk =>
    match chunk.document_id with
    | some d => decide (d ∈ document_ids)
    | none => false)

/-- `InMemoryChunkRepository.update`. -/
def InMemoryChunkRepository.update (s : List Chunk) (chunk : Chunk) :
    List Chunk × Chunk :=
  (putById Chunk.id s chunk, chunk)

/-- `InMemoryChunkRepository.delete`. -/
def InMemoryChunkRepository.delete (s : List Chunk) (chunk_id : Id) :
    List Chunk × Bool :=
  if (getById Chunk.id s chunk_id).isSome then (delById Chunk.id s chunk_id, true)
  else (s, false)

/-! ### Similarity search (in_memory_repository.py, search.py) -/

/-- Stable descending insertion by score (second component): the new element
goes after every earlier element with a strictly larger score and before the
first element whose score is not larger — so among equal scores the earlier
element stays first. -/
def insertScoreDesc (x : Chunk × ℚ) : List (Chunk × ℚ) → List (Chunk × ℚ)
  | [] => [x]
  | y :: t => if x.2 < y.2 then y :: insertScoreDesc x t else x :: y :: t

/-- Python `list.sort(key=lambda x: x[1], reverse=True)`: a stable sort into
non-increasing score order. -/
def sortScoreDesc : List (Chunk × ℚ) → List (Chunk × ℚ)
  | [] => []
  | x :: t => insertScoreDesc x (sortScoreDesc t)

/-- Python slice `l[:k]` for an arbitrary integer `k`: a prefix of length `k`
when `k ≥ 0`, and all but the last `-k` elements when `k < 0`. -/
def pySlice (l : List α) (k : Int) : List α :=
  if 0 ≤ k then l.take k.toNat
  else l.take (l.length - (-k).toNat)

/-- The temporary query chunk `ChunkModel(vector=query_vector)` built inside
`search_by_vector_similarity` (its generated id and empty metadata are never
used by the similarity computation); the constructor's empty-vector
validation is performed by the caller below. -/
def queryChunk (query_vector : List ℚ) : Chunk :=
  { id := 0, vector := query_vector, metadata := [], document_id := none }

/-- The `similarities` list of `search_by_vector_similarity`: each candidate
chunk paired with its similarity to the query; candidates whose similarity
computation raises (dimension mismatch) are skipped. -/
def scoredChunks (db : DB) (library_id : Id) (query_vector : List ℚ) :
    List (Chunk × ℚ) :=
  (InMemoryChunkRepository.list_by_library_id db library_id).filterMap (fun chunk =>
    match (queryChunk query_vector).similarity_to chunk with
    | .ok s => some (chunk, s)
    | .error _ => none)

/-- `InMemoryChunkRepository.search_by_vector_similarity`: returns `[]` when
the library has no chunks; otherwise builds the query chunk (whose
construction raises `ValueError` on an empty query vector), scores all
candidates, sorts stably by descending score and slices to `top_k`. -/
def InMemoryChunkRepository.search_by_vector_similarity (db : DB) (library_id : Id)
    (query_vector : List ℚ) (top_k : Int) : Except String (List (Chunk × ℚ)) :=
  let chunks := InMemoryChunkRepository.list_by_library_id db library_id
  if chunks.isEmpty then .ok []
  else if query_vector = [] then .error "Vector cannot be empty"
  else .ok (pySlice (sortScoreDesc (scoredChunks db library_id query_vector)) top_k)

/-! ### API layer (interface/api) -/

/-- An HTTP error response (`HTTPException`): status code and detail. -/
structure HTTPError where
  status : Nat
  detail : String
deriving DecidableEq, Repr

/-- `SearchRequest` (search.py): `top_k` defaults to 10 and is an unvalidated
`int` (negative values pass schema validation). -/
structure SearchRequest where
  query_vector : List ℚ
  top_k : Int := 10
deriving DecidableEq, Repr

/-- `SearchResult` (search.py). -/
structure SearchResult where
  chunk_id : Id
  vector : List ℚ
  metadata : Metadata
  document_id : Id
  similarity_score : ℚ
deriving DecidableEq, Repr

/-- `SearchResponse` (search.py). -/
structure SearchResponse where
  library_id : Id
  query_vector : List ℚ
  top_k : Int
  results : List SearchResult
  total_chunks_searched : Nat
deriving DecidableEq, Repr

/-- `search_library` endpoint (search.py): 404 if the library is absent, 422
on an empty query vector, otherwise delegates to the repository search and
reports the number of candidate chunks of the library. -/
def search_library (db : DB) (library_id : Id) (request : SearchRequest) :
    Except HTTPError SearchResponse :=
  match InMemoryLibraryRepository.get_by_id db.libraries library_id with
  | none => .error ⟨404, "Library not found"⟩
  | some _ =>
    if request.query_vector = [] then .error ⟨422, "Query vector cannot be empty"⟩
    else
      match InMemoryChunkRepository.search_by_vector_similarity db library_id
          request.query_vector request.top_k with
      | .error e => .error ⟨422, "Search error: " ++ e⟩
      | .ok search_results =>
        let all_chunks := InMemoryChunkRepository.list_by_library_id db library_id
        .ok
          { library_id := library_id
            query_vector := request.query_vector
            top_k := request.top_k
            results :=
              (search_results.filter (fun p => p.1.document_id.isSome)).map (fun p =>
                { chunk_id := p.1.id
                  vector := p.1.vector
                  metadata := p.1.metadata
                  document_id := p.1.document_id.getD 0
                  similarity_score := p.2 })
            total_chunks_searched := all_chunks.length }

/-- `CreateLibraryRequest` (libraries.py). -/
structure CreateLibraryRequest where
  name : String
  description : Option String := none
  metadata : Metadata := []
deriving DecidableEq, Repr

/-- `UpdateLibraryRequest` (libraries.py): every field optional; a JSON
`null` parses to `None` exactly like an omitted field, so both are `none`. -/
structure UpdateLibraryRequest where
  name : Option String := none
  description : Option String := none
  metadata : Option Metadata := none
deriving DecidableEq, Repr

/-- `CreateDocumentRequest` (documents.py). -/
structure CreateDocumentRequest where
  title : String
  content : Option String := none
  metadata : Metadata := []
deriving DecidableEq, Repr

/-- `UpdateDocumentRequest` (documents.py): every field optional; a JSON
`null` parses to `None` exactly like an omitted field, so both are `none`. -/
structure UpdateDocumentRequest where
  title : Option String := none
  content : Option String := none
  metadata : Option Metadata := none
deriving DecidableEq, Repr

/-- `CreateChunkRequest` (chunks.py); also used as the body of the chunk
update endpoint. -/
structure CreateChunkRequest where
  vector : List ℚ
  metadata : Metadata := []
  document_id : Option Id := none
deriving DecidableEq, Repr

/-- `create_library` endpoint (libraries.py); `fresh` is the `uuid4()` id. -/
def create_library (db : DB) (fresh : Id) (request : CreateLibraryRequest) :
    DB × Except HTTPError Library :=
  let library : Library :=
    { id := fresh, name := request.name, description := request.description
      metadata := request.metadata, document_ids := [] }
  let (s, library) := InMemoryLibraryRepository.create db.libraries library
  ({ db with libraries := s }, .ok library)

/-- `create_document_in_library` endpoint (documents.py): 404 unless the
library exists; stores the document with a back-reference, then appends its
id to the library's `document_ids` and persists the library. -/
def create_document_in_library (db : DB) (library_id : Id) (fresh : Id)
    (request : CreateDocumentRequest) : DB × Except HTTPError Document :=
  match InMemoryLibraryRepository.get_by_id db.libraries library_id with
  | none => (db, .error ⟨404, "Library not found"⟩)
  | some library =>
    let document : Document :=
      { id := fresh, title := request.title, content := request.content
        metadata := request.metadata, chunk_ids := [], library_id := some library_id }
    let (sd, document) := InMemoryDocumentRepository.create db.documents document
    let db := { db with documents := sd }
    let library := library.add_document_id document.id
    let (sl, _) := InMemoryLibraryRepository.update db.libraries library
    ({ db with libraries := sl }, .ok document)

/-- `create_chunk_in_document` endpoint (chunks.py): 404 unless the library
exists and the document exists with a matching back-reference; builds the
chunk (empty-vector validation raises, surfacing as a 500), stores it, then
adds its id to the document. -/
def create_chunk_in_document (db : DB) (library_id document_id fresh : Id)
    (request : CreateChunkRequest) : DB × Except HTTPError Chunk :=
  match InMemoryLibraryRepository.get_by_id db.libraries library_id with
  | none => (db, .error ⟨404, "Library not found"⟩)
  | some _ =>
    match InMemoryDocumentRepository.get_by_id db.documents document_id with
    | none => (db, .error ⟨404, "Document not found in this library"⟩)
    | some document =>
      if document.library_id ≠ some library_id then
        (db, .error ⟨404, "Document not found in this library"⟩)
      else
        match Chunk.make fresh request.vector request.metadata (some document_id) with
        | .error e => (db, .error ⟨500, e⟩)
        | .ok chunk =>
          let (sc, chunk) := InMemoryChunkRepository.create db.chunks chunk
          let db := { db with chunks := sc }
          let document := document.add_chunk_id chunk.id
          let (sd, _) := InMemoryDocumentRepository.update db.documents document
          ({ db with documents := sd }, .ok chunk)

/-- `create_chunk_in_library` endpoint (chunks.py): reuses the first document
of the library whose title starts with `"Default Document"`, creating one
(and registering it in the library) when none exists, then creates the chunk
under it. -/
def create_chunk_in_library (db : DB) (library_id freshDoc freshChunk : Id)
    (request : CreateChunkRequest) : DB × Except HTTPError Chunk :=
  match InMemoryLibraryRepository.get_by_id db.libraries library_id with
  | none => (db, .error ⟨404, "Library not found"⟩)
  | some library =>
    let documents := InMemoryDocumentRepository.list_by_library_id db.documents library_id
    match documents.find? (fun doc => doc.title.startsWith "Default Document") with
    | some default_doc =>
      match Chunk.make freshChunk request.vector request.metadata (some default_doc.id) with
      | .error e => (db, .error ⟨500, e⟩)
      | .ok chunk =>
        let (sc, chunk) := InMemoryChunkRepository.create db.chunks chunk
        let db := { db with chunks := sc }
        let default_doc := default_doc.add_chunk_id chunk.id
        let (sd, _) := InMemoryDocumentRepository.update db.documents default_doc
        ({ db with documents := sd }, .ok chunk)
    | none =>
      let default_doc : Document :=
        { id := freshDoc, title := "Default Document"
          content := some "Auto-created document for direct chunk uploads"
          metadata := [("auto_created", "True")], chunk_ids := []
          library_id := some library_id }
      let (sd, default_doc) := InMemoryDocumentRepository.create db.documents default_doc
      let db := { db with documents := sd }
      let library := library.add_document_id default_doc.id
      let (sl, _) := InMemoryLibraryRepository.update db.libraries library
      let db := { db with libraries := sl }
      match Chunk.make freshChunk request.vector request.metadata (some default_doc.id) with
      | .error e => (db, .error ⟨500, e⟩)
      | .ok chunk =>
        let (sc, chunk) := InMemoryChunkRepository.create db.chunks chunk
        let db := { db with chunks := sc }
        let default_doc := default_doc.add_chunk_id chunk.id
        let (sd2, _) := InMemoryDocumentRepository.update db.documents default_doc
        ({ db with documents := sd2 }, .ok chunk)

/-- The "update only provided fields" block of the `update_library` endpoint:
a field that is `none` (omitted, or an explicit JSON `null` — Pydantic parses
both to `None`) leaves the stored value alone. -/
def patchLibrary (library : Library) (request : UpdateLibraryRequest) : Library :=
  let library := match request.name with
    | some n => { library with name := n }
    | none => library
  let library := match request.description with
    | some d => { library with description := some d }
    | none => library
  match request.metadata with
  | some m => { library with metadata := m }
  | none => library

/-- `update_library` endpoint (libraries.py): 404 if absent; only fields
present (non-`None`) in the request overwrite the stored values. -/
def update_library (db : DB) (library_id : Id) (request : UpdateLibraryRequest) :
    DB × Except HTTPError Library :=
  match InMemoryLibraryRepository.get_by_id db.libraries library_id with
  | none => (db, .error ⟨404, "Library not found"⟩)
  | some library =>
    let library := patchLibrary library request
    let (sl, library) := InMemoryLibraryRepository.update db.libraries library
    ({ db with libraries := sl }, .ok library)

/-- The "update only provided fields" block of the `update_document_in_library`
endpoint: a field that is `none` (omitted, or an explicit JSON `null` —
Pydantic parses both to `None`) leaves the stored value alone. -/
def patchDocument (document : Document) (request : UpdateDocumentRequest) : Document :=
  let document := match request.title with
    | some t => { document with title := t }
    | none => document
  let document := match request.content with
    | some c => { document with content := some c }
    | none => document
  match request.metadata with
  | some m => { document with metadata := m }
  | none => document

/-- `update_document_in_library` endpoint (documents.py): 404 checks on the
library, the document and its back-reference; only fields present
(non-`None`) in the request overwrite the stored values. -/
def update_document_in_library (db : DB) (library_id document_id : Id)
    (request : UpdateDocumentRequest) : DB × Except HTTPError Document :=
  match InMemoryLibraryRepository.get_by_id db.libraries library_id with
  | none => (db, .error ⟨404, "Library not found"⟩)
  | some _ =>
    match InMemoryDocumentRepository.get_by_id db.documents document_id with
    | none => (db, .error ⟨404, "Document not found"⟩)
    | some document =>
      if document.library_id ≠ some library_id then
        (db, .error ⟨404, "Document not found in this library"⟩)
      else
        let document := patchDocument document request
        let (sd, document) := InMemoryDocumentRepository.update db.documents document
        ({ db with documents := sd }, .ok document)

/-- `update_chunk_in_library` endpoint (chunks.py): 404 checks on the library
and the chunk's ancestry; then rebuilds the chunk from the request's vector
and metadata, keeping the path's chunk id and the original document
association (the request's `document_id` field is not consulted). -/
def update_chunk_in_library (db : DB) (library_id chunk_id : Id)
    (request : CreateChunkRequest) : DB × Except HTTPError Chunk :=
  match InMemoryLibraryRepository.get_by_id db.libraries library_id with
  | none => (db, .error ⟨404, "Library not found"⟩)
  | some _ =>
    match InMemoryChunkRepository.get_by_id db.chunks chunk_id with
    | none => (db, .error ⟨404, "Chunk not found"⟩)
    | some chunk =>
      match chunk.document_id with
      | none => (db, .error ⟨404, "Chunk not found in this library"⟩)
      | some did =>
        match InMemoryDocumentRepository.get_by_id db.documents did with
        | none => (db, .error ⟨404, "Chunk not found in this library"⟩)
        | some document =>
          if document.library_id ≠ some library_id then
            (db, .error ⟨404, "Chunk not found in this library"⟩)
          else
            match Chunk.make chunk_id request.vector request.metadata chunk.document_id with
            | .error e => (db, .error ⟨500, e⟩)
            | .ok updated_chunk =>
              let (sc, updated_chunk) := InMemoryChunkRepository.update db.chunks updated_chunk
              ({ db with chunks := sc }, .ok updated_chunk)

/-- A `for chunk in chunks: await chunk_repo.delete(chunk.id)` loop, as it
appears in the document- and library-deletion endpoints. -/
def deleteChunksLoop (db : DB) (chunks : List Chunk) : DB :=
  chunks.foldl (fun acc c =>
    { acc with chunks := (InMemoryChunkRepository.delete acc.chunks c.id).1 }) db

/-- `delete_chunk_in_library` endpoint (chunks.py): 404 checks on the library
and the chunk's ancestry; removes the chunk id from its document's list,
persists the document, then deletes the chunk. -/
def delete_chunk_in_library (db : DB) (library_id chunk_id : Id) :
    DB × Except HTTPError String :=
  match InMemoryLibraryRepository.get_by_id db.libraries library_id with
  | none => (db, .error ⟨404, "Library not found"⟩)
  | some _ =>
    match InMemoryChunkRepository.get_by_id db.chunks chunk_id with
    | none => (db, .error ⟨404, "Chunk not found"⟩)
    | some chunk =>
      match chunk.document_id with
      | none => (db, .error ⟨404, "Chunk not found in this library"⟩)
      | some did =>
        match InMemoryDocumentRepository.get_by_id db.documents did with
        | none => (db, .error ⟨404, "Chunk not found in this library"⟩)
        | some document =>
          if document.library_id ≠ some library_id then
            (db, .error ⟨404, "Chunk not found in this library"⟩)
          else
            let document := document.remove_chunk_id chunk_id
            let sd := (InMemoryDocumentRepository.update db.documents document).1
            let db := { db with documents := sd }
            let sc := (InMemoryChunkRepository.delete db.chunks chunk_id).1
            ({ db with chunks := sc }, .ok "Chunk deleted successfully")

/-- `delete_document_in_library` endpoint (documents.py): 404 checks; deletes
every chunk whose `document_id` is this document, removes the document id
from the library, then deletes the document. -/
def delete_document_in_library (db : DB) (library_id document_id : Id) :
    DB × Except HTTPError String :=
  match InMemoryLibraryRepository.get_by_id db.libraries library_id with
  | none => (db, .error ⟨404, "Library not found"⟩)
  | some library =>
    match InMemoryDocumentRepository.get_by_id db.documents document_id with
    | none => (db, .error ⟨404, "Document not found"⟩)
    | some document =>
      if document.library_id ≠ some library_id then
        (db, .error ⟨404, "Document not found in this library"⟩)
      else
        let chunks := InMemoryChunkRepository.list_by_document_id db.chunks document_id
        let db := deleteChunksLoop db chunks
        let library := library.remove_document_id document_id
        let sl := (InMemoryLibraryRepository.update db.libraries library).1
        let db := { db with libraries := sl }
        let sd := (InMemoryDocumentRepository.delete db.documents document_id).1
        ({ db with documents := sd }, .ok "Document deleted successfully")

/-- One iteration of `delete_library`'s document loop: delete every chunk of
the document (snapshotting `list_by_document_id` first), then the document. -/
def deleteDocStep (acc : DB) (document : Document) : DB :=
  let chunks := InMemoryChunkRepository.list_by_document_id acc.chunks document.id
  let acc := deleteChunksLoop acc chunks
  { acc with documents := (InMemoryDocumentRepository.delete acc.documents document.id).1 }

/-- `delete_library` endpoint (libraries.py): 404 if absent; for every
document whose `library_id` is this library (snapshotted first), deletes its
chunks and the document; finally deletes the library itself. -/
def delete_library (db : DB) (library_id : Id) : DB × Except HTTPError String :=
  match InMemoryLibraryRepository.get_by_id db.libraries library_id with
  | none => (db, .error ⟨404, "Library not found"⟩)
  | some _ =>
    let documents := InMemoryDocumentRepository.list_by_library_id db.documents library_id
    let db := documents.foldl deleteDocStep db
    let success := (InMemoryLibraryRepository.delete db.libraries library_id).2
    let db := { db with libraries :=
      (InMemoryLibraryRepository.delete db.libraries library_id).1 }
    if success then (db, .ok "Library deleted successfully")
    else (db, .error ⟨404, "Library not found"⟩)

/-- Legacy `create_chunk` endpoint (chunks.py): stores a chunk with the
request's `document_id` taken verbatim (no ancestry bookkeeping). -/
def create_chunk (db : DB) (fresh : Id) (request : CreateChunkRequest) :
    DB × Except HTTPError Chunk :=
  match Chunk.make fresh request.vector request.metadata request.document_id with
  | .error e => (db, .error ⟨500, e⟩)
  | .ok chunk =>
    let (sc, chunk) := InMemoryChunkRepository.create db.chunks chunk
    ({ db with chunks := sc }, .ok chunk)

/-- Legacy `delete_chunk` endpoint (chunks.py): detaches the chunk from its
document (when that document exists) and deletes it. -/
def delete_chunk (db : DB) (chunk_id : Id) : DB × Except HTTPError String :=
  match InMemoryChunkRepository.get_by_id db.chunks chunk_id with
  | none => (db, .error ⟨404, "Chunk not found"⟩)
  | some chunk =>
    let db := match chunk.document_id with
      | none => db
      | some did =>
        match InMemoryDocumentRepository.get_by_id db.documents did with
        | none => db
        | some document =>
          let document := document.remove_chunk_id chunk_id
          { db with documents := (InMemoryDocumentRepository.update db.documents document).1 }
    let sc := (InMemoryChunkRepository.delete db.chunks chunk_id).1
    ({ db with chunks := sc }, .ok "Chunk deleted successfully")

/-! ### Derived definitions used in statements -/

/-- The similarity value `similarity_to` yields on equal-dimension vectors
(zero when either has zero magnitude, else the encoded cosine score). -/
def simScore (q v : List ℚ) : ℚ :=
  if sumSq q = 0 ∨ sumSq v = 0 then 0
  else cosScore (dot q v) (sumSq q) (sumSq v)

/-- The state-mutating public operations of the API, with the `uuid4()`
identifiers as explicit parameters. -/
inductive Op where
  | opCreateLibrary (fresh : Id) (request : CreateLibraryRequest)
  | opCreateDocument (library_id fresh : Id) (request : CreateDocumentRequest)
  | opCreateChunkInDocument (library_id document_id fresh : Id) (request : CreateChunkRequest)
  | opCreateChunkInLibrary (library_id freshDoc freshChunk : Id) (request : CreateChunkRequest)
  | opUpdateLibrary (library_id : Id) (request : UpdateLibraryRequest)
  | opUpdateDocument (library_id document_id : Id) (request : UpdateDocumentRequest)
  | opUpdateChunk (library_id chunk_id : Id) (request : CreateChunkRequest)
  | opDeleteChunk (library_id chunk_id : Id)
  | opDeleteDocument (library_id document_id : Id)
  | opDeleteLibrary (library_id : Id)
  | opLegacyCreateChunk (fresh : Id) (request : CreateChunkRequest)
  | opLegacyDeleteChunk (chunk_id : Id)

/-- The state transition of each public operation (read-only endpoints do not
change the state). -/
def applyOp (db : DB) : Op → DB
  | .opCreateLibrary fresh request => (create_library db fresh request).1
  | .opCreateDocument library_id fresh request =>
      (create_document_in_library db library_id fresh request).1
  | .opCreateChunkInDocument library_id document_id fresh request =>
      (create_chunk_in_document db library_id document_id fresh request).1
  | .opCreateChunkInLibrary library_id freshDoc freshChunk request =>
      (create_chunk_in_library db library_id freshDoc freshChunk request).1
  | .opUpdateLibrary library_id request => (update_library db library_id request).1
  | .opUpdateDocument library_id document_id request =>
      (update_document_in_library db library_id document_id request).1
  | .opUpdateChunk library_id chunk_id request =>
      (update_chunk_in_library db library_id chunk_id request).1
  | .opDeleteChunk library_id chunk_id => (delete_chunk_in_library db library_id chunk_id).1
  | .opDeleteDocument library_id document_id =>
      (delete_document_in_library db library_id document_id).1
  | .opDeleteLibrary library_id => (delete_library db library_id).1
  | .opLegacyCreateChunk fresh request => (create_chunk db fresh request).1
  | .opLegacyDeleteChunk chunk_id => (delete_chunk db chunk_id).1

/-- Database states reachable from the empty initial state through the public
operations. -/
inductive Reachable : DB → Prop where
  | init : Reachable DB.empty
  | step (op : Op) {db : DB} : Reachable db → Reachable (applyOp db op)

/-- Duplicate-freeness of every child-id list in the database. -/
def NodupIds (db : DB) : Prop :=
  (∀ d ∈ db.documents, d.chunk_ids.Nodup) ∧ ∀ l ∈ db.libraries, l.document_ids.Nodup

/-! ### Concrete states used by witnesses and counterexamples -/

/-- Example library (id 1) holding document 2. -/
def exLib : Library :=
  { id := 1, name := "Docs", description := none, metadata := [], document_ids := [2] }

/-- Example document (id 2) in library 1 holding chunks 3 and 4. -/
def exDoc : Document :=
  { id := 2, title := "T", content := none, metadata := [("k", "v")]
    chunk_ids := [3, 4], library_id := some 1 }

/-- Example chunk (id 3) in document 2. -/
def exChunkA : Chunk := { id := 3, vector := [3, 4], metadata := [], document_id := some 2 }

/-- Example chunk (id 4) in document 2. -/
def exChunkB : Chunk := { id := 4, vector := [1, 0], metadata := [], document_id := some 2 }

/-- Example database: one library, one document, two chunks. -/
def exDB : DB := { libraries := [exLib], documents := [exDoc], chunks := [exChunkA, exChunkB] }

/-- A second library value with the same identifier as `exLib` but a
different name. -/
def exLibB : Library :=
  { id := 1, name := "Other", description := none, metadata := [], document_ids := [] }

/-! ### Lemmas about the dict primitives -/

theorem getById_putById_self (f : α → Id) (l : List α) (e : α) :
    getById f (putById f l e) (f e) = some e := by
  induction l with
  | nil => simp [putById, getById]
  | cons x t ih =>
    by_cases h : f x = f e
    · simp [putById, getById, h]
    · simp [putById, getById, h, ih]

theorem getById_putById_ne (f : α → Id) (l : List α) (e : α) (k : Id) (h : k ≠ f e) :
    getById f (putById f l e) k = getById f l k := by
  have he : ¬ f e = k := fun hh => h hh.symm
  induction l with
  | nil => simp [putById, getById, he]
  | cons x t ih =>
    by_cases hx : f x = f e
    · have hxk : ¬ f x = k := by rw [hx]; exact he
      simp [putById, getById, hx, he, hxk]
    · by_cases hk : f x = k
      · rw [putById, if_neg hx, getById, if_pos hk, getById, if_pos hk]
      · rw [putById, if_neg hx, getById, if_neg hk, getById, if_neg hk, ih]

theorem mem_putById {f : α → Id} {l : List α} {e x : α} (h : x ∈ putById f l e) :
    x = e ∨ x ∈ l := by
  induction l with
  | nil => simpa [putById] using h
  | cons y t ih =>
    by_cases hy : f y = f e
    · rw [putById, if_pos hy] at h
      rcases List.mem_cons.mp h with h | h
      · exact .inl h
      · exact .inr (List.mem_cons_of_mem _ h)
    · rw [putById, if_neg hy] at h
      rcases List.mem_cons.mp h with h | h
      · exact .inr (h ▸ List.mem_cons_self _ _)
      · rcases ih h with h | h
        · exact .inl h
        · exact .inr (List.mem_cons_of_mem _ h)

theorem getById_eq_some {f : α → Id} {l : List α} {k : Id} {x : α}
    (h : getById f l k = some x) : x ∈ l ∧ f x = k := by
  induction l with
  | nil => simp [getById] at h
  | cons y t ih =>
    by_cases hy : f y = k
    · rw [getById, if_pos hy] at h
      have hxy : y = x := Option.some_injective _ h
      exact ⟨hxy ▸ List.mem_cons_self _ _, hxy ▸ hy⟩
    · rw [getById, if_neg hy] at h
      exact ⟨List.mem_cons_of_mem _ (ih h).1, (ih h).2⟩

theorem mem_delById {f : α → Id} {l : List α} {k : Id} {x : α}
    (h : x ∈ delById f l k) : x ∈ l :=
  List.mem_of_mem_filter h

theorem key_ne_of_mem_delById {f : α → Id} {l : List α} {k : Id} {x : α}
    (h : x ∈ delById f l k) : f x ≠ k := by
  have := List.of_mem_filter h
  simpa using this

theorem getById_delById_self (f : α → Id) (l : List α) (k : Id) :
    getById f (delById f l k) k = none := by
  induction l with
  | nil => simp [delById, getById]
  | cons x t ih =>
    by_cases hx : f x = k
    · simpa [delById, List.filter_cons, hx] using ih
    · simpa [delById, List.filter_cons, hx, getById] using ih

theorem delById_of_getById_none {f : α → Id} {l : List α} {k : Id}
    (h : getById f l k = none) : delById f l k = l := by
  induction l with
  | nil => simp [delById]
  | cons x t ih =>
    by_cases hx : f x = k
    · rw [getById, if_pos hx] at h
      exact absurd h (by simp)
    · rw [getById, if_neg hx] at h
      simpa [delById, List.filter_cons, hx] using ih h

theorem chunkDelete_fst (s : List Chunk) (k : Id) :
    (InMemoryChunkRepository.delete s k).1 = delById Chunk.id s k := by
  cases hg : getById Chunk.id s k with
  | some x => simp [InMemoryChunkRepository.delete, hg]
  | none => simp [InMemoryChunkRepository.delete, hg, delById_of_getById_none hg]

theorem docDelete_fst (s : List Document) (k : Id) :
    (InMemoryDocumentRepository.delete s k).1 = delById Document.id s k := by
  cases hg : getById Document.id s k with
  | some x => simp [InMemoryDocumentRepository.delete, hg]
  | none => simp [InMemoryDocumentRepository.delete, hg, delById_of_getById_none hg]

theorem libDelete_fst (s : List Library) (k : Id) :
    (InMemoryLibraryRepository.delete s k).1 = delById Library.id s k := by
  cases hg : getById Library.id s k with
  | some x => simp [InMemoryLibraryRepository.delete, hg]
  | none => simp [InMemoryLibraryRepository.delete, hg, delById_of_getById_none hg]

/-! ### Lemmas about Python slicing -/

theorem pySlice_sublist (l : List α) (k : Int) : (pySlice l k).Sublist l := by
  unfold pySlice
  by_cases h : 0 ≤ k <;> simp [h, List.take_sublist]

theorem pySlice_length_le (l : List α) (k : Int) (h : 0 ≤ k) :
    (pySlice l k).length ≤ k.toNat := by
  simp [pySlice, h]

theorem pySlice_zero (l : List α) : pySlice l 0 = [] := by
  simp [pySlice]

theorem pySlice_neg_length (l : List α) (k : Int) (h : k < 0) :
    (pySlice l k).length = l.length - (-k).toNat := by
  have : ¬ 0 ≤ k := by omega
  simp [pySlice, this, Nat.sub_le]

theorem mem_pySlice {l : List α} {k : Int} {x : α} (h : x ∈ pySlice l k) : x ∈ l :=
  (pySlice_sublist l k).mem h

/-! ### Lemmas about the stable descending sort -/

theorem mem_insertScoreDesc {x y : Chunk × ℚ} {l : List (Chunk × ℚ)} :
    y ∈ insertScoreDesc x l ↔ y = x ∨ y ∈ l := by
  induction l with
  | nil => simp [insertScoreDesc]
  | cons z t ih =>
    by_cases h : x.2 < z.2
    · rw [insertScoreDesc, if_pos h]
      simp only [List.mem_cons, ih]
      tauto
    · rw [insertScoreDesc, if_neg h]
      simp only [List.mem_cons]

theorem pairwise_insertScoreDesc {x : Chunk × ℚ} {l : List (Chunk × ℚ)}
    (h : l.Pairwise (fun a b => b.2 ≤ a.2)) :
    (insertScoreDesc x l).Pairwise (fun a b => b.2 ≤ a.2) := by
  induction l with
  | nil => simp [insertScoreDesc]
  | cons z t ih =>
    rcases List.pairwise_cons.mp h with ⟨hz, ht⟩
    by_cases hlt : x.2 < z.2
    · rw [insertScoreDesc, if_pos hlt]
      refine List.pairwise_cons.mpr ⟨?_, ih ht⟩
      intro y hy
      rcases mem_insertScoreDesc.mp hy with rfl | hy
      · exact le_of_lt hlt
      · exact hz y hy
    · rw [insertScoreDesc, if_neg hlt]
      refine List.pairwise_cons.mpr ⟨?_, h⟩
      intro y hy
      rcases List.mem_cons.mp hy with rfl | hy
      · exact le_of_not_lt hlt
      · exact le_trans (hz y hy) (le_of_not_lt hlt)

theorem filter_insertScoreDesc (x : Chunk × ℚ) (l : List (Chunk × ℚ)) (s : ℚ) :
    (insertScoreDesc x l).filter (fun p => p.2 = s) =
      (if x.2 = s then [x] else []) ++ l.filter (fun p => p.2 = s) := by
  induction l with
  | nil =>
    by_cases hx : x.2 = s <;> simp [insertScoreDesc, List.filter_cons, hx]
  | cons z t ih =>
    by_cases hlt : x.2 < z.2
    · rw [insertScoreDesc, if_pos hlt]
      by_cases hx : x.2 = s
      · have hz : ¬ z.2 = s := by
          intro hzs
          exact absurd (hx ▸ hzs ▸ hlt) (lt_irrefl _)
        simp [List.filter_cons, hz, ih, hx]
      · simp [List.filter_cons, ih, hx]
    · rw [insertScoreDesc, if_neg hlt]
      by_cases hx : x.2 = s <;> simp [List.filter_cons, hx]

theorem pairwise_sortScoreDesc (l : List (Chunk × ℚ)) :
    (sortScoreDesc l).Pairwise (fun a b => b.2 ≤ a.2) := by
  induction l with
  | nil => simp [sortScoreDesc]
  | cons x t ih => exact pairwise_insertScoreDesc ih

theorem filter_sortScoreDesc (l : List (Chunk × ℚ)) (s : ℚ) :
    (sortScoreDesc l).filter (fun p => p.2 = s) = l.filter (fun p => p.2 = s) := by
  induction l with
  | nil => simp [sortScoreDesc]
  | cons x t ih =>
    rw [sortScoreDesc, filter_insertScoreDesc, ih]
    by_cases hx : x.2 = s <;> simp [List.filter_cons, hx]

theorem mem_sortScoreDesc {y : Chunk × ℚ} {l : List (Chunk × ℚ)} :
    y ∈ sortScoreDesc l ↔ y ∈ l := by
  induction l with
  | nil => simp [sortScoreDesc]
  | cons x t ih =>
    rw [sortScoreDesc, mem_insertScoreDesc]
    simp [ih, eq_comm]

/-! ### Lemmas about similarity and scoring -/

theorem similarity_to_eq_simScore {a b : Chunk} (h : a.vector.length = b.vector.length) :
    a.similarity_to b = .ok (simScore a.vector b.vector) := by
  rw [Chunk.similarity_to, if_neg (by rw [h]; exact fun hh => hh rfl), simScore]
  by_cases hz : sumSq a.vector = 0 ∨ sumSq b.vector = 0
  · rw [if_pos hz, if_pos hz]
  · rw [if_neg hz, if_neg hz]

theorem similarity_to_error {a b : Chunk} (h : a.vector.length ≠ b.vector.length) :
    a.similarity_to b =
      .error "Cannot calculate similarity between vectors of different dimensions" := by
  rw [Chunk.similarity_to, if_pos h]

theorem distance_to_error {a b : Chunk} (h : a.vector.length ≠ b.vector.length) :
    a.distance_to b =
      .error "Cannot calculate distance between vectors of different dimensions" := by
  rw [Chunk.distance_to, if_pos h]

/-- The similarities list is exactly the equal-dimension candidates, in
candidate (creation) order, each paired with its similarity score. -/
theorem scoredChunks_eq (db : DB) (library_id : Id) (q : List ℚ) :
    scoredChunks db library_id q =
      ((InMemoryChunkRepository.list_by_library_id db library_id).filter
          (fun c => c.vector.length = q.length)).map (fun c => (c, simScore q c.vector)) := by
  rw [scoredChunks]
  generalize InMemoryChunkRepository.list_by_library_id db library_id = cands
  induction cands with
  | nil => simp
  | cons c t ih =>
    by_cases hc : c.vector.length = q.length
    · rw [List.filterMap_cons, similarity_to_eq_simScore (a := queryChunk q) (b := c)
        (by simpa [queryChunk] using hc.symm)]
      simpa [List.filter_cons, hc, queryChunk] using
        congrArg (List.cons (c, simScore q c.vector)) ih
    · rw [List.filterMap_cons, similarity_to_error (a := queryChunk q) (b := c)
        (by simpa [queryChunk] using fun hh => hc hh.symm)]
      simpa [List.filter_cons, hc] using ih

/-- Every candidate chunk of `list_by_library_id` belongs, through its
`document_id`, to a document of the library. -/
theorem mem_list_by_library_id {db : DB} {library_id : Id} {c : Chunk}
    (h : c ∈ InMemoryChunkRepository.list_by_library_id db library_id) :
    c ∈ db.chunks ∧
      ∃ d ∈ db.documents, d.library_id = some library_id ∧ c.document_id = some d.id := by
  rw [InMemoryChunkRepository.list_by_library_id] at h
  refine ⟨List.mem_of_mem_filter h, ?_⟩
  have hp := List.of_mem_filter h
  cases hdid : c.document_id with
  | none => rw [hdid] at hp; simp at hp
  | some did =>
    rw [hdid] at hp
    simp only [decide_eq_true_eq] at hp
    rcases List.mem_map.mp hp with ⟨d, hd, hdi⟩
    have hd2 := List.of_mem_filter hd
    simp only [decide_eq_true_eq] at hd2
    refine ⟨d, List.mem_of_mem_filter hd, hd2, ?_⟩
    rw [hdi]


/-- With a non-empty query vector, the repository search returns (without
raising) the stably-sorted, sliced similarities list. -/
theorem search_ok (db : DB) (library_id : Id) (q : List ℚ) (k : Int) (hq : q ≠ []) :
    InMemoryChunkRepository.search_by_vector_similarity db library_id q k =
      .ok (pySlice (sortScoreDesc (scoredChunks db library_id q)) k) := by
  rw [InMemoryChunkRepository.search_by_vector_similarity]
  by_cases hc : (InMemoryChunkRepository.list_by_library_id db library_id).isEmpty
  · have hnil : InMemoryChunkRepository.list_by_library_id db library_id = [] :=
      List.isEmpty_iff.mp hc
    simp [hc, scoredChunks, hnil, sortScoreDesc, pySlice]
  · simp [hc, hq]

/-! ### Lemmas about the deletion cascades -/

theorem deleteChunksLoop_cons (db : DB) (c : Chunk) (t : List Chunk) :
    deleteChunksLoop db (c :: t) =
      deleteChunksLoop { db with chunks := (InMemoryChunkRepository.delete db.chunks c.id).1 } t :=
  rfl

theorem deleteChunksLoop_documents (db : DB) (cs : List Chunk) :
    (deleteChunksLoop db cs).documents = db.documents := by
  induction cs generalizing db with
  | nil => rfl
  | cons c t ih => rw [deleteChunksLoop_cons, ih]

theorem deleteChunksLoop_libraries (db : DB) (cs : List Chunk) :
    (deleteChunksLoop db cs).libraries = db.libraries := by
  induction cs generalizing db with
  | nil => rfl
  | cons c t ih => rw [deleteChunksLoop_cons, ih]

theorem mem_chunks_deleteChunksLoop {db : DB} {cs : List Chunk} {x : Chunk}
    (h : x ∈ (deleteChunksLoop db cs).chunks) : x ∈ db.chunks := by
  induction cs generalizing db with
  | nil => exact h
  | cons c t ih =>
    rw [deleteChunksLoop_cons] at h
    have := ih h
    rw [chunkDelete_fst] at this
    exact mem_delById this

theorem deleteChunksLoop_clears {db : DB} {cs : List Chunk} :
    ∀ c ∈ cs, ∀ x ∈ (deleteChunksLoop db cs).chunks, x.id ≠ c.id := by
  induction cs generalizing db with
  | nil => intro c hc; simp at hc
  | cons c t ih =>
    intro c' hc' x hx
    rcases List.mem_cons.mp hc' with rfl | hc'
    · rw [deleteChunksLoop_cons] at hx
      have := mem_chunks_deleteChunksLoop hx
      rw [chunkDelete_fst] at this
      exact key_ne_of_mem_delById this
    · rw [deleteChunksLoop_cons] at hx
      exact ih c' hc' x hx

theorem deleteDocStep_libraries (db : DB) (d : Document) :
    (deleteDocStep db d).libraries = db.libraries := by
  rw [deleteDocStep, deleteChunksLoop_libraries]

theorem deleteDocStep_chunks (db : DB) (d : Document) :
    (deleteDocStep db d).chunks =
      (deleteChunksLoop db (InMemoryChunkRepository.list_by_document_id db.chunks d.id)).chunks :=
  rfl

theorem mem_chunks_deleteDocStep {db : DB} {d : Document} {x : Chunk}
    (h : x ∈ (deleteDocStep db d).chunks) : x ∈ db.chunks := by
  rw [deleteDocStep_chunks] at h
  exact mem_chunks_deleteChunksLoop h

theorem mem_documents_deleteDocStep {db : DB} {d : Document} {y : Document}
    (h : y ∈ (deleteDocStep db d).documents) : y ∈ db.documents := by
  rw [deleteDocStep] at h
  rw [docDelete_fst] at h
  have := mem_delById h
  rwa [deleteChunksLoop_documents] at this

theorem deleteDocStep_doc_cleared {db : DB} {d : Document} :
    ∀ y ∈ (deleteDocStep db d).documents, y.id ≠ d.id := by
  intro y hy
  rw [deleteDocStep, docDelete_fst] at hy
  exact key_ne_of_mem_delById hy

theorem deleteDocStep_chunks_cleared {db : DB} {d : Document} :
    ∀ x ∈ (deleteDocStep db d).chunks, x.document_id ≠ some d.id := by
  intro x hx href
  have hxdb : x ∈ db.chunks := mem_chunks_deleteDocStep hx
  have hxcs : x ∈ InMemoryChunkRepository.list_by_document_id db.chunks d.id := by
    rw [InMemoryChunkRepository.list_by_document_id]
    exact List.mem_filter.mpr ⟨hxdb, by simp [href]⟩
  rw [deleteDocStep_chunks] at hx
  exact deleteChunksLoop_clears x hxcs x hx rfl

theorem foldl_deleteDocStep_libraries (ds : List Document) (db : DB) :
    (ds.foldl deleteDocStep db).libraries = db.libraries := by
  induction ds generalizing db with
  | nil => rfl
  | cons d t ih => rw [List.foldl_cons, ih, deleteDocStep_libraries]

theorem mem_documents_foldl_deleteDocStep {ds : List Document} {db : DB} {y : Document}
    (h : y ∈ (ds.foldl deleteDocStep db).documents) : y ∈ db.documents := by
  induction ds generalizing db with
  | nil => exact h
  | cons d t ih =>
    rw [List.foldl_cons] at h
    exact mem_documents_deleteDocStep (ih h)

theorem mem_chunks_foldl_deleteDocStep {ds : List Document} {db : DB} {x : Chunk}
    (h : x ∈ (ds.foldl deleteDocStep db).chunks) : x ∈ db.chunks := by
  induction ds generalizing db with
  | nil => exact h
  | cons d t ih =>
    rw [List.foldl_cons] at h
    exact mem_chunks_deleteDocStep (ih h)

theorem foldl_deleteDocStep_clears {ds : List Document} {db : DB} :
    ∀ d ∈ ds,
      (∀ y ∈ (ds.foldl deleteDocStep db).documents, y.id ≠ d.id) ∧
      (∀ x ∈ (ds.foldl deleteDocStep db).chunks, x.document_id ≠ some d.id) := by
  induction ds generalizing db with
  | nil => intro d hd; simp at hd
  | cons d t ih =>
    intro d' hd'
    rcases List.mem_cons.mp hd' with rfl | hd'
    · constructor
      · intro y hy
        rw [List.foldl_cons] at hy
        exact deleteDocStep_doc_cleared y (mem_documents_foldl_deleteDocStep hy)
      · intro x hx
        rw [List.foldl_cons] at hx
        exact deleteDocStep_chunks_cleared x (mem_chunks_foldl_deleteDocStep hx)
    · rw [List.foldl_cons]
      exact ih d' hd'

/-! ### Field characterization of the patch operations -/

theorem patchLibrary_fields (l : Library) (r : UpdateLibraryRequest) :
    (patchLibrary l r).id = l.id ∧
    (patchLibrary l r).document_ids = l.document_ids ∧
    (patchLibrary l r).name = r.name.getD l.name ∧
    ((patchLibrary l r).description =
      match r.description with | some d => some d | none => l.description) ∧
    (patchLibrary l r).metadata = r.metadata.getD l.metadata := by
  rcases r with ⟨rn, rd, rm⟩
  cases rn <;> cases rd <;> cases rm <;> simp [patchLibrary]

theorem patchDocument_fields (d : Document) (r : UpdateDocumentRequest) :
    (patchDocument d r).id = d.id ∧
    (patchDocument d r).chunk_ids = d.chunk_ids ∧
    (patchDocument d r).library_id = d.library_id ∧
    (patchDocument d r).title = r.title.getD d.title ∧
    ((patchDocument d r).content =
      match r.content with | some c => some c | none => d.content) ∧
    (patchDocument d r).metadata = r.metadata.getD d.metadata := by
  rcases r with ⟨rt, rc, rm⟩
  cases rt <;> cases rc <;> cases rm <;> simp [patchDocument]

/-! ### Preservation of duplicate-freeness (the C9 invariant) -/

theorem nodup_add_chunk_id {d : Document} (h : d.chunk_ids.Nodup) (cid : Id) :
    (d.add_chunk_id cid).chunk_ids.Nodup := by
  rw [Document.add_chunk_id]
  by_cases hm : cid ∈ d.chunk_ids
  · rw [if_pos hm]; exact h
  · rw [if_neg hm]
    exact h.append (List.nodup_singleton _) (by simpa [List.disjoint_singleton] using hm)

theorem nodup_add_document_id {l : Library} (h : l.document_ids.Nodup) (did : Id) :
    (l.add_document_id did).document_ids.Nodup := by
  rw [Library.add_document_id]
  by_cases hm : did ∈ l.document_ids
  · rw [if_pos hm]; exact h
  · rw [if_neg hm]
    exact h.append (List.nodup_singleton _) (by simpa [List.disjoint_singleton] using hm)

theorem nodupDocs_put {ds : List Document} {d : Document}
    (h : ∀ y ∈ ds, y.chunk_ids.Nodup) (hd : d.chunk_ids.Nodup) :
    ∀ y ∈ putById Document.id ds d, y.chunk_ids.Nodup := by
  intro y hy
  rcases mem_putById hy with rfl | hy
  · exact hd
  · exact h y hy

theorem nodupLibs_put {ls : List Library} {l : Library}
    (h : ∀ y ∈ ls, y.document_ids.Nodup) (hl : l.document_ids.Nodup) :
    ∀ y ∈ putById Library.id ls l, y.document_ids.Nodup := by
  intro y hy
  rcases mem_putById hy with rfl | hy
  · exact hl
  · exact h y hy

theorem nodupIds_mk {ls : List Library} {ds : List Document} {cs : List Chunk}
    (h1 : ∀ d ∈ ds, d.chunk_ids.Nodup) (h2 : ∀ l ∈ ls, l.document_ids.Nodup) :
    NodupIds (DB.mk ls ds cs) :=
  ⟨h1, h2⟩

/-- Every public operation preserves duplicate-freeness of all child-id
lists. -/
theorem nodupIds_applyOp {db : DB} (h : NodupIds db) (op : Op) :
    NodupIds (applyOp db op) := by
  cases op with
  | opCreateLibrary fresh request =>
    simp only [applyOp, create_library, InMemoryLibraryRepository.create]
    exact nodupIds_mk h.1 (nodupLibs_put h.2 List.nodup_nil)
  | opCreateDocument library_id fresh request =>
    cases hlib : InMemoryLibraryRepository.get_by_id db.libraries library_id with
    | none => simpa [applyOp, create_document_in_library, hlib] using h
    | some library =>
      have hmem := (getById_eq_some (f := Library.id) hlib).1
      simp only [applyOp, create_document_in_library, hlib,
        InMemoryDocumentRepository.create, InMemoryLibraryRepository.update]
      exact nodupIds_mk (nodupDocs_put h.1 List.nodup_nil)
        (nodupLibs_put h.2 (nodup_add_document_id (h.2 library hmem) _))
  | opCreateChunkInDocument library_id document_id fresh request =>
    cases hlib : InMemoryLibraryRepository.get_by_id db.libraries library_id with
    | none => simpa [applyOp, create_chunk_in_document, hlib] using h
    | some library =>
      cases hdoc : InMemoryDocumentRepository.get_by_id db.documents document_id with
      | none => simpa [applyOp, create_chunk_in_document, hlib, hdoc] using h
      | some document =>
        have hdmem := (getById_eq_some (f := Document.id) hdoc).1
        by_cases hbl : document.library_id = some library_id
        · cases hmk : Chunk.make fresh request.vector request.metadata (some document_id) with
          | error e =>
            simpa [applyOp, create_chunk_in_document, hlib, hdoc, hbl, hmk] using h
          | ok chunk =>
            simp only [applyOp, create_chunk_in_document, hlib, hdoc, hbl, hmk,
              InMemoryChunkRepository.create, InMemoryDocumentRepository.update,
              ne_eq, not_true_eq_false, if_false]
            exact nodupIds_mk
              (nodupDocs_put h.1 (nodup_add_chunk_id (h.1 document hdmem) _)) h.2
        · simpa [applyOp, create_chunk_in_document, hlib, hdoc, hbl] using h
  | opCreateChunkInLibrary library_id freshDoc freshChunk request =>
    cases hlib : InMemoryLibraryRepository.get_by_id db.libraries library_id with
    | none => simpa [applyOp, create_chunk_in_library, hlib] using h
    | some library =>
      have hlmem := (getById_eq_some (f := Library.id) hlib).1
      cases hfind : (InMemoryDocumentRepository.list_by_library_id db.documents
          library_id).find? (fun doc => doc.title.startsWith "Default Document") with
      | some default_doc =>
        have hdmem : default_doc ∈ db.documents :=
          List.mem_of_mem_filter (List.mem_of_find?_eq_some hfind)
        cases hmk : Chunk.make freshChunk request.vector request.metadata
            (some default_doc.id) with
        | error e =>
          simpa [applyOp, create_chunk_in_library, hlib, hfind, hmk] using h
        | ok chunk =>
          simp only [applyOp, create_chunk_in_library, hlib, hfind, hmk,
            InMemoryChunkRepository.create, InMemoryDocumentRepository.update]
          exact nodupIds_mk
            (nodupDocs_put h.1 (nodup_add_chunk_id (h.1 default_doc hdmem) _)) h.2
      | none =>
        cases hmk : Chunk.make freshChunk request.vector request.metadata
            (some freshDoc) with
        | error e =>
          simp only [applyOp, create_chunk_in_library, hlib, hfind, hmk,
            InMemoryDocumentRepository.create, InMemoryLibraryRepository.update]
          exact nodupIds_mk (nodupDocs_put h.1 List.nodup_nil)
            (nodupLibs_put h.2 (nodup_add_document_id (h.2 library hlmem) _))
        | ok chunk =>
          simp only [applyOp, create_chunk_in_library, hlib, hfind, hmk,
            InMemoryDocumentRepository.create, InMemoryLibraryRepository.update,
            InMemoryChunkRepository.create, InMemoryDocumentRepository.update]
          exact nodupIds_mk
            (nodupDocs_put (nodupDocs_put h.1 List.nodup_nil)
              (nodup_add_chunk_id List.nodup_nil _))
            (nodupLibs_put h.2 (nodup_add_document_id (h.2 library hlmem) _))
  | opUpdateLibrary library_id request =>
    cases hlib : InMemoryLibraryRepository.get_by_id db.libraries library_id with
    | none => simpa [applyOp, update_library, hlib] using h
    | some library =>
      have hlmem := (getById_eq_some (f := Library.id) hlib).1
      simp only [applyOp, update_library, hlib, InMemoryLibraryRepository.update]
      refine nodupIds_mk h.1 (nodupLibs_put h.2 ?_)
      rw [(patchLibrary_fields library request).2.1]
      exact h.2 library hlmem
  | opUpdateDocument library_id document_id request =>
    cases hlib : InMemoryLibraryRepository.get_by_id db.libraries library_id with
    | none => simpa [applyOp, update_document_in_library, hlib] using h
    | some library =>
      cases hdoc : InMemoryDocumentRepository.get_by_id db.documents document_id with
      | none => simpa [applyOp, update_document_in_library, hlib, hdoc] using h
      | some document =>
        have hdmem := (getById_eq_some (f := Document.id) hdoc).1
        by_cases hbl : document.library_id = some library_id
        · simp only [applyOp, update_document_in_library, hlib, hdoc, hbl,
            InMemoryDocumentRepository.update, ne_eq, not_true_eq_false, if_false]
          refine nodupIds_mk (nodupDocs_put h.1 ?_) h.2
          rw [(patchDocument_fields document request).2.1]
          exact h.1 document hdmem
        · simpa [applyOp, update_document_in_library, hlib, hdoc, hbl] using h
  | opUpdateChunk library_id chunk_id request =>
    cases hlib : InMemoryLibraryRepository.get_by_id db.libraries library_id with
    | none => simpa [applyOp, update_chunk_in_library, hlib] using h
    | some library =>
      cases hch : InMemoryChunkRepository.get_by_id db.chunks chunk_id with
      | none => simpa [applyOp, update_chunk_in_library, hlib, hch] using h
      | some chunk =>
        cases hdid : chunk.document_id with
        | none => simpa [applyOp, update_chunk_in_library, hlib, hch, hdid] using h
        | some did =>
          cases hdoc : InMemoryDocumentRepository.get_by_id db.documents did with
          | none => simpa [applyOp, update_chunk_in_library, hlib, hch, hdid, hdoc] using h
          | some document =>
            by_cases hbl : document.library_id = some library_id
            · cases hmk : Chunk.make chunk_id request.vector request.metadata
                  (some did) with
              | error e =>
                simpa [applyOp, update_chunk_in_library, hlib, hch, hdid, hdoc, hbl,
                  hmk] using h
              | ok updated_chunk =>
                simp only [applyOp, update_chunk_in_library, hlib, hch, hdid, hdoc,
                  hbl, hmk, InMemoryChunkRepository.update, ne_eq, not_true_eq_false,
                  if_false]
                exact nodupIds_mk h.1 h.2
            · simpa [applyOp, update_chunk_in_library, hlib, hch, hdid, hdoc, hbl] using h
  | opDeleteChunk library_id chunk_id =>
    cases hlib : InMemoryLibraryRepository.get_by_id db.libraries library_id with
    | none => simpa [applyOp, delete_chunk_in_library, hlib] using h
    | some library =>
      cases hch : InMemoryChunkRepository.get_by_id db.chunks chunk_id with
      | none => simpa [applyOp, delete_chunk_in_library, hlib, hch] using h
      | some chunk =>
        cases hdid : chunk.document_id with
        | none => simpa [applyOp, delete_chunk_in_library, hlib, hch, hdid] using h
        | some did =>
          cases hdoc : InMemoryDocumentRepository.get_by_id db.documents did with
          | none => simpa [applyOp, delete_chunk_in_library, hlib, hch, hdid, hdoc] using h
          | some document =>
            have hdmem := (getById_eq_some (f := Document.id) hdoc).1
            by_cases hbl : document.library_id = some library_id
            · simp only [applyOp, delete_chunk_in_library, hlib, hch, hdid, hdoc, hbl,
                InMemoryDocumentRepository.update, ne_eq, not_true_eq_false, if_false]
              exact nodupIds_mk
                (nodupDocs_put h.1 ((h.1 document hdmem).erase chunk_id)) h.2
            · simpa [applyOp, delete_chunk_in_library, hlib, hch, hdid, hdoc, hbl] using h
  | opDeleteDocument library_id document_id =>
    cases hlib : InMemoryLibraryRepository.get_by_id db.libraries library_id with
    | none => simpa [applyOp, delete_document_in_library, hlib] using h
    | some library =>
      have hlmem := (getById_eq_some (f := Library.id) hlib).1
      cases hdoc : InMemoryDocumentRepository.get_by_id db.documents document_id with
      | none => simpa [applyOp, delete_document_in_library, hlib, hdoc] using h
      | some document =>
        by_cases hbl : document.library_id = some library_id
        · simp only [applyOp, delete_document_in_library, hlib, hdoc, hbl,
            InMemoryLibraryRepository.update, ne_eq, not_true_eq_false, if_false]
          refine nodupIds_mk (fun y hy => ?_) (fun y hy => ?_)
          · rw [docDelete_fst] at hy
            have hy2 := mem_delById hy
            rw [deleteChunksLoop_documents] at hy2
            exact h.1 y hy2
          · rcases mem_putById hy with rfl | hy2
            · exact (h.2 library hlmem).erase _
            · rw [deleteChunksLoop_libraries] at hy2
              exact h.2 y hy2
        · simpa [applyOp, delete_document_in_library, hlib, hdoc, hbl] using h
  | opDeleteLibrary library_id =>
    cases hlib : InMemoryLibraryRepository.get_by_id db.libraries library_id with
    | none => simpa [applyOp, delete_library, hlib] using h
    | some library =>
      simp only [applyOp, delete_library, hlib]
      set db1 := (InMemoryDocumentRepository.list_by_library_id db.documents
        library_id).foldl deleteDocStep db with hdb1
      have hcore : NodupIds { db1 with libraries :=
          (InMemoryLibraryRepository.delete db1.libraries library_id).1 } := by
        refine ⟨fun y hy => ?_, fun y hy => ?_⟩
        · exact h.1 y (mem_documents_foldl_deleteDocStep (hdb1 ▸ hy))
        · rw [libDelete_fst] at hy
          have hy2 := mem_delById hy
          rw [hdb1, foldl_deleteDocStep_libraries] at hy2
          exact h.2 y hy2
      split
      · exact hcore
      · exact hcore
  | opLegacyCreateChunk fresh request =>
    cases hmk : Chunk.make fresh request.vector request.metadata request.document_id with
    | error e => simpa [applyOp, create_chunk, hmk] using h
    | ok chunk =>
      simp only [applyOp, create_chunk, hmk, InMemoryChunkRepository.create]
      exact nodupIds_mk h.1 h.2
  | opLegacyDeleteChunk chunk_id =>
    cases hch : InMemoryChunkRepository.get_by_id db.chunks chunk_id with
    | none => simpa [applyOp, delete_chunk, hch] using h
    | some chunk =>
      cases hdid : chunk.document_id with
      | none =>
        simp only [applyOp, delete_chunk, hdid, hch]
        exact nodupIds_mk h.1 h.2
      | some did =>
        cases hdoc : InMemoryDocumentRepository.get_by_id db.documents did with
        | none =>
          simp only [applyOp, delete_chunk, hch, hdid, hdoc]
          exact nodupIds_mk h.1 h.2
        | some document =>
          have hdmem := (getById_eq_some (f := Document.id) hdoc).1
          simp only [applyOp, delete_chunk, hch, hdid, hdoc,
            InMemoryDocumentRepository.update]
          exact nodupIds_mk (nodupDocs_put h.1 ((h.1 document hdmem).erase _)) h.2

theorem length_insertScoreDesc (x : Chunk × ℚ) (l : List (Chunk × ℚ)) :
    (insertScoreDesc x l).length = l.length + 1 := by
  induction l with
  | nil => rfl
  | cons y t ih =>
    by_cases hlt : x.2 < y.2
    · rw [insertScoreDesc, if_pos hlt]
      simp [ih]
    · rw [insertScoreDesc, if_neg hlt]
      simp

theorem length_sortScoreDesc (l : List (Chunk × ℚ)) :
    (sortScoreDesc l).length = l.length := by
  induction l with
  | nil => rfl
  | cons x t ih => rw [sortScoreDesc, length_insertScoreDesc, ih, List.length_cons]

/-! ### The claims -/

/-- C1: for every library, non-empty query vector and `top_k`, the result of
`search_by_vector_similarity` is the stably-sorted, sliced similarity list:
it is sorted in non-increasing score order, ties keep the candidate
(insertion/creation) order — the result entries of any fixed score form a
sublist of the similarity list, which lists candidates in creation order —
and every returned chunk belongs to a document whose `library_id` is the
searched library. -/
theorem claim_C1_search_ranking (db : DB) (library_id : Id) (q : List ℚ) (k : Int)
    (hq : q ≠ []) :
    InMemoryChunkRepository.search_by_vector_similarity db library_id q k =
      .ok (pySlice (sortScoreDesc (scoredChunks db library_id q)) k) ∧
    (pySlice (sortScoreDesc (scoredChunks db library_id q)) k).Pairwise
      (fun p p' => p'.2 ≤ p.2) ∧
    (∀ s : ℚ,
      ((pySlice (sortScoreDesc (scoredChunks db library_id q)) k).filter
          (fun p => p.2 = s)).Sublist
        ((scoredChunks db library_id q).filter (fun p => p.2 = s))) ∧
    ∀ p ∈ pySlice (sortScoreDesc (scoredChunks db library_id q)) k,
      ∃ d ∈ db.documents, d.library_id = some library_id ∧ p.1.document_id = some d.id := by
  refine ⟨search_ok db library_id q k hq, ?_, ?_, ?_⟩
  · exact List.Pairwise.sublist (pySlice_sublist _ _) (pairwise_sortScoreDesc _)
  · intro s
    have h1 := (pySlice_sublist (sortScoreDesc (scoredChunks db library_id q)) k).filter
      (fun p => decide (p.2 = s))
    rwa [filter_sortScoreDesc] at h1
  · intro p hp
    have hmem := mem_sortScoreDesc.mp (mem_pySlice hp)
    rw [scoredChunks_eq] at hmem
    rcases List.mem_map.mp hmem with ⟨c, hc, rfl⟩
    exact (mem_list_by_library_id (List.mem_of_mem_filter hc)).2

/-- Witness for C1 at a concrete database and query. -/
theorem claim_C1_witness :
    InMemoryChunkRepository.search_by_vector_similarity exDB 1 [1, 0] 5 =
      .ok (pySlice (sortScoreDesc (scoredChunks exDB 1 [1, 0])) 5) ∧
    (pySlice (sortScoreDesc (scoredChunks exDB 1 [1, 0])) 5).Pairwise
      (fun p p' => p'.2 ≤ p.2) ∧
    (∀ s : ℚ,
      ((pySlice (sortScoreDesc (scoredChunks exDB 1 [1, 0])) 5).filter
          (fun p => p.2 = s)).Sublist
        ((scoredChunks exDB 1 [1, 0]).filter (fun p => p.2 = s))) ∧
    ∀ p ∈ pySlice (sortScoreDesc (scoredChunks exDB 1 [1, 0])) 5,
      ∃ d ∈ exDB.documents, d.library_id = some 1 ∧ p.1.document_id = some d.id :=
  claim_C1_search_ranking exDB 1 [1, 0] 5 (List.cons_ne_nil 1 [0])

/-- C9: in every state reachable through the public operations, each
document's `chunk_ids` and each library's `document_ids` list is
duplicate-free, and `add_chunk_id` / `add_document_id` are no-ops when the
identifier is already a member. -/
theorem claim_C9_nodup_child_ids {db : DB} (h : Reachable db) :
    NodupIds db ∧
    (∀ (d : Document) (cid : Id), cid ∈ d.chunk_ids → d.add_chunk_id cid = d) ∧
    (∀ (l : Library) (did : Id), did ∈ l.document_ids → l.add_document_id did = l) := by
  refine ⟨?_, ?_, ?_⟩
  · induction h with
    | init => exact ⟨by simp [DB.empty], by simp [DB.empty]⟩
    | step op h ih => exact nodupIds_applyOp ih op
  · intro d cid hm
    rw [Document.add_chunk_id, if_pos hm]
  · intro l did hm
    rw [Library.add_document_id, if_pos hm]

/-- Witness for C9 at a concrete reachable state: a library, a document and a
chunk created from the empty database. -/
theorem claim_C9_witness :
    NodupIds (applyOp (applyOp (applyOp DB.empty
        (.opCreateLibrary 1 { name := "Docs" }))
        (.opCreateDocument 1 2 { title := "T" }))
        (.opCreateChunkInDocument 1 2 3 { vector := [3, 4] })) ∧
    (∀ (d : Document) (cid : Id), cid ∈ d.chunk_ids → d.add_chunk_id cid = d) ∧
    (∀ (l : Library) (did : Id), did ∈ l.document_ids → l.add_document_id did = l) :=
  claim_C9_nodup_child_ids
    (Reachable.step _ (Reachable.step _ (Reachable.step _ Reachable.init)))

/-- C2 (amended): the default `top_k` is 10; with a non-empty query the
search succeeds and returns at most `top_k` results when `top_k ≥ 0`, exactly
none when `top_k = 0`, and — per Python slice semantics — all but the last
`-top_k` ranked candidates when `top_k < 0` (which can be non-empty); the
endpoint response reports the number of candidate chunks considered. -/
theorem claim_C2_topk_and_total :
    (∀ v : List ℚ, ({ query_vector := v } : SearchRequest).top_k = 10) ∧
    (∀ (db : DB) (library_id : Id) (q : List ℚ) (k : Int), q ≠ [] →
      ∃ res, InMemoryChunkRepository.search_by_vector_similarity db library_id q k =
          .ok res ∧
        (0 ≤ k → res.length ≤ k.toNat) ∧
        (k = 0 → res = []) ∧
        (k < 0 → res.length = (scoredChunks db library_id q).length - (-k).toNat)) ∧
    (∀ (db : DB) (library_id : Id) (lib : Library) (request : SearchRequest),
      InMemoryLibraryRepository.get_by_id db.libraries library_id = some lib →
      request.query_vector ≠ [] →
      ∃ resp, search_library db library_id request = .ok resp ∧
        resp.total_chunks_searched =
          (InMemoryChunkRepository.list_by_library_id db library_id).length) := by
  refine ⟨fun v => rfl, ?_, ?_⟩
  · intro db library_id q k hq
    refine ⟨_, search_ok db library_id q k hq, ?_, ?_, ?_⟩
    · intro hk
      exact pySlice_length_le _ _ hk
    · intro hk
      rw [hk, pySlice_zero]
    · intro hk
      rw [pySlice_neg_length _ _ hk, length_sortScoreDesc]
  · intro db library_id lib request hlib hq
    rw [search_library, hlib]
    simp only [hq, if_neg, reduceIte]
    rw [search_ok db library_id request.query_vector request.top_k hq]
    exact ⟨_, rfl, rfl⟩

/-- Counterexample to C2 as stated: with two candidate chunks and
`top_k = -1 ≤ 0`, the search returns one result, not an empty result set
(Python's `l[:-1]` drops only the last element). -/
theorem claim_C2_counterexample :
    InMemoryChunkRepository.search_by_vector_similarity exDB 1 [0, 0] (-1) =
      .ok [(exChunkA, 0)] ∧
    (-1 : Int) ≤ 0 ∧ ((exChunkA, (0 : ℚ)) :: []) ≠ [] := by
  refine ⟨?_, by decide, by simp⟩
  have hsum : sumSq [0, 0] = 0 := by simp [sumSq, dot]
  have hcands : InMemoryChunkRepository.list_by_library_id exDB 1 =
      [exChunkA, exChunkB] := rfl
  have hscored : scoredChunks exDB 1 [0, 0] = [(exChunkA, 0), (exChunkB, 0)] := by
    rw [scoredChunks_eq, hcands]
    simp [List.filter_cons, exChunkA, exChunkB, simScore, hsum]
  rw [search_ok exDB 1 [0, 0] (-1) (List.cons_ne_nil 0 [0]), hscored]
  simp [sortScoreDesc, insertScoreDesc, pySlice]

/-- Witness for C2 at a concrete database, query and request. -/
theorem claim_C2_witness :
    (∃ res, InMemoryChunkRepository.search_by_vector_similarity exDB 1 [1, 0] 5 =
        .ok res ∧
      ((0 : Int) ≤ 5 → res.length ≤ (5 : Int).toNat) ∧
      ((5 : Int) = 0 → res = []) ∧
      ((5 : Int) < 0 → res.length = (scoredChunks exDB 1 [1, 0]).length - (-5 : Int).toNat)) ∧
    (∃ resp, search_library exDB 1 { query_vector := [1, 0] } = .ok resp ∧
      resp.total_chunks_searched =
        (InMemoryChunkRepository.list_by_library_id exDB 1).length) :=
  ⟨claim_C2_topk_and_total.2.1 exDB 1 [1, 0] 5 (List.cons_ne_nil 1 [0]),
   claim_C2_topk_and_total.2.2 exDB 1 exLib { query_vector := [1, 0] } rfl
     (List.cons_ne_nil 1 [0])⟩

theorem sumSq_cons (x : ℚ) (t : List ℚ) : sumSq (x :: t) = x * x + sumSq t := by
  simp [sumSq, dot]

/-- C3: cosine similarity on equal-dimension vectors is 0 whenever either
vector has zero magnitude (zero sum of squares), with no error; a vector all
of whose components are 0 has zero magnitude; and searching with a zero query
vector succeeds, scoring every equal-dimension candidate 0. -/
theorem claim_C3_zero_vector_similarity :
    (∀ a b : Chunk, a.vector.length = b.vector.length →
      sumSq a.vector = 0 ∨ sumSq b.vector = 0 → a.similarity_to b = .ok 0) ∧
    (∀ v : List ℚ, (∀ x ∈ v, x = 0) → sumSq v = 0) ∧
    (∀ (db : DB) (library_id : Id) (q : List ℚ) (k : Int), q ≠ [] → sumSq q = 0 →
      scoredChunks db library_id q =
        ((InMemoryChunkRepository.list_by_library_id db library_id).filter
          (fun c => c.vector.length = q.length)).map (fun c => (c, (0 : ℚ))) ∧
      ∃ res, InMemoryChunkRepository.search_by_vector_similarity db library_id q k =
          .ok res ∧ ∀ p ∈ res, p.2 = 0) := by
  refine ⟨?_, ?_, ?_⟩
  · intro a b hlen hz
    rw [similarity_to_eq_simScore hlen, simScore, if_pos hz]
  · intro v hv
    induction v with
    | nil => rfl
    | cons x t ih =>
      rw [sumSq_cons, hv x (List.mem_cons_self _ _),
        ih (fun y hy => hv y (List.mem_cons_of_mem _ hy))]
      simp
  · intro db library_id q k hq hq0
    have hsc : scoredChunks db library_id q =
        ((InMemoryChunkRepository.list_by_library_id db library_id).filter
          (fun c => c.vector.length = q.length)).map (fun c => (c, (0 : ℚ))) := by
      rw [scoredChunks_eq]
      refine List.map_congr_left ?_
      intro c hc
      rw [simScore, if_pos (.inl hq0)]
    refine ⟨hsc, _, search_ok db library_id q k hq, ?_⟩
    intro p hp
    have hmem := mem_sortScoreDesc.mp (mem_pySlice hp)
    rw [hsc] at hmem
    rcases List.mem_map.mp hmem with ⟨c, _, rfl⟩
    rfl

/-- Witness for C3: a zero chunk against `[3,4]`, and the zero query `[0,0]`
on the example database. -/
theorem claim_C3_witness :
    ((Chunk.mk 9 [0, 0] [] none).similarity_to exChunkA = .ok 0) ∧
    (sumSq [0, 0] = 0) ∧
    (scoredChunks exDB 1 [0, 0] =
      ((InMemoryChunkRepository.list_by_library_id exDB 1).filter
        (fun c => c.vector.length = ([0, 0] : List ℚ).length)).map (fun c => (c, (0 : ℚ))) ∧
    ∃ res, InMemoryChunkRepository.search_by_vector_similarity exDB 1 [0, 0] 5 =
        .ok res ∧ ∀ p ∈ res, p.2 = 0) := by
  have hz : sumSq [0, 0] = 0 := claim_C3_zero_vector_similarity.2.1 [0, 0] (by simp)
  exact ⟨claim_C3_zero_vector_similarity.1 (Chunk.mk 9 [0, 0] [] none) exChunkA rfl
      (.inl hz),
    hz,
    claim_C3_zero_vector_similarity.2.2 exDB 1 [0, 0] 5 (List.cons_ne_nil 0 [0]) hz⟩

/-- C4: a direct distance or similarity call on unequal-length vectors fails
with the dimension-mismatch error; search with a non-empty query never fails,
scores exactly the equal-dimension candidates (silently skipping the others),
and every returned chunk has the query's dimension. -/
theorem claim_C4_mismatch_skip :
    (∀ a b : Chunk, a.vector.length ≠ b.vector.length →
      a.distance_to b =
        .error "Cannot calculate distance between vectors of different dimensions" ∧
      a.similarity_to b =
        .error "Cannot calculate similarity between vectors of different dimensions") ∧
    (∀ (db : DB) (library_id : Id) (q : List ℚ) (k : Int), q ≠ [] →
      ∃ res, InMemoryChunkRepository.search_by_vector_similarity db library_id q k =
          .ok res ∧
        res = pySlice (sortScoreDesc
          (((InMemoryChunkRepository.list_by_library_id db library_id).filter
            (fun c => c.vector.length = q.length)).map
              (fun c => (c, simScore q c.vector)))) k ∧
        ∀ p ∈ res, p.1.vector.length = q.length) := by
  refine ⟨?_, ?_⟩
  · intro a b hlen
    exact ⟨distance_to_error hlen, similarity_to_error hlen⟩
  · intro db library_id q k hq
    refine ⟨_, search_ok db library_id q k hq, ?_, ?_⟩
    · rw [scoredChunks_eq]
    · intro p hp
      have hmem := mem_sortScoreDesc.mp (mem_pySlice hp)
      rw [scoredChunks_eq] at hmem
      rcases List.mem_map.mp hmem with ⟨c, hc, rfl⟩
      have := List.of_mem_filter hc
      simpa using this

/-- Witness for C4: `[3,4]` against `[1,0,0]`, and a concrete search. -/
theorem claim_C4_witness :
    (exChunkA.distance_to (Chunk.mk 9 [1, 0, 0] [] none) =
      .error "Cannot calculate distance between vectors of different dimensions" ∧
     exChunkA.similarity_to (Chunk.mk 9 [1, 0, 0] [] none) =
      .error "Cannot calculate similarity between vectors of different dimensions") ∧
    (∃ res, InMemoryChunkRepository.search_by_vector_similarity exDB 1 [1, 0] 5 =
        .ok res ∧
      res = pySlice (sortScoreDesc
        (((InMemoryChunkRepository.list_by_library_id exDB 1).filter
          (fun c => c.vector.length = ([1, 0] : List ℚ).length)).map
            (fun c => (c, simScore [1, 0] c.vector)))) 5 ∧
      ∀ p ∈ res, p.1.vector.length = ([1, 0] : List ℚ).length) :=
  ⟨claim_C4_mismatch_skip.1 exChunkA (Chunk.mk 9 [1, 0, 0] [] none) (by decide),
   claim_C4_mismatch_skip.2 exDB 1 [1, 0] 5 (List.cons_ne_nil 1 [0])⟩

/-- C5: after `delete_library` on a present library, no document referencing
the library remains, no chunk referencing any of the library's (pre-state)
documents remains, the library itself is gone, and the call reports
success. -/
theorem claim_C5_delete_library_cascades (db : DB) (library_id : Id) (lib : Library)
    (hfound : InMemoryLibraryRepository.get_by_id db.libraries library_id = some lib) :
    (∀ d ∈ (delete_library db library_id).1.documents, d.library_id ≠ some library_id) ∧
    (∀ c ∈ (delete_library db library_id).1.chunks,
      ∀ d ∈ db.documents, d.library_id = some library_id → c.document_id ≠ some d.id) ∧
    InMemoryLibraryRepository.get_by_id (delete_library db library_id).1.libraries
      library_id = none ∧
    (delete_library db library_id).2 = .ok "Library deleted successfully" := by
  have hfound' : getById Library.id db.libraries library_id = some lib := hfound
  have hlibs1 : ((InMemoryDocumentRepository.list_by_library_id db.documents
      library_id).foldl deleteDocStep db).libraries = db.libraries :=
    foldl_deleteDocStep_libraries _ _
  have hmain : delete_library db library_id =
      ({ (InMemoryDocumentRepository.list_by_library_id db.documents
            library_id).foldl deleteDocStep db with
          libraries := delById Library.id db.libraries library_id },
        .ok "Library deleted successfully") := by
    rw [delete_library, hfound]
    simp only [InMemoryLibraryRepository.delete, hlibs1, hfound', Option.isSome_some,
      if_true, reduceIte]
  refine ⟨?_, ?_, ?_, ?_⟩
  · intro d hd hdl
    rw [hmain] at hd
    have hdb : d ∈ db.documents := mem_documents_foldl_deleteDocStep hd
    have hsnap : d ∈ InMemoryDocumentRepository.list_by_library_id db.documents
        library_id := by
      rw [InMemoryDocumentRepository.list_by_library_id]
      exact List.mem_filter.mpr ⟨hdb, by simp [hdl]⟩
    exact (foldl_deleteDocStep_clears d hsnap).1 d hd rfl
  · intro c hc d hd hdl
    rw [hmain] at hc
    have hsnap : d ∈ InMemoryDocumentRepository.list_by_library_id db.documents
        library_id := by
      rw [InMemoryDocumentRepository.list_by_library_id]
      exact List.mem_filter.mpr ⟨hd, by simp [hdl]⟩
    exact (foldl_deleteDocStep_clears d hsnap).2 c hc
  · rw [hmain]
    exact getById_delById_self _ _ _
  · rw [hmain]

/-- Witness for C5: deleting library 1 from the example database. -/
theorem claim_C5_witness :
    (∀ d ∈ (delete_library exDB 1).1.documents, d.library_id ≠ some 1) ∧
    (∀ c ∈ (delete_library exDB 1).1.chunks,
      ∀ d ∈ exDB.documents, d.library_id = some 1 → c.document_id ≠ some d.id) ∧
    InMemoryLibraryRepository.get_by_id (delete_library exDB 1).1.libraries 1 = none ∧
    (delete_library exDB 1).2 = .ok "Library deleted successfully" :=
  claim_C5_delete_library_cascades exDB 1 exLib rfl

/-- C6 (amended): `create` on each store is an unconditional dict insert — a
duplicate identifier silently replaces the stored entity (no `Conflict` is
raised), and entities under other identifiers are unchanged. -/
theorem claim_C6_create_overwrites :
    (∀ (s : List Library) (l : Library),
      InMemoryLibraryRepository.get_by_id (InMemoryLibraryRepository.create s l).1
          l.id = some l ∧
      ∀ k, k ≠ l.id → InMemoryLibraryRepository.get_by_id
        (InMemoryLibraryRepository.create s l).1 k =
        InMemoryLibraryRepository.get_by_id s k) ∧
    (∀ (s : List Document) (d : Document),
      InMemoryDocumentRepository.get_by_id (InMemoryDocumentRepository.create s d).1
          d.id = some d ∧
      ∀ k, k ≠ d.id → InMemoryDocumentRepository.get_by_id
        (InMemoryDocumentRepository.create s d).1 k =
        InMemoryDocumentRepository.get_by_id s k) ∧
    (∀ (s : List Chunk) (c : Chunk),
      InMemoryChunkRepository.get_by_id (InMemoryChunkRepository.create s c).1
          c.id = some c ∧
      ∀ k, k ≠ c.id → InMemoryChunkRepository.get_by_id
        (InMemoryChunkRepository.create s c).1 k =
        InMemoryChunkRepository.get_by_id s k) :=
  ⟨fun s l => ⟨getById_putById_self _ s l, fun k hk => getById_putById_ne _ s l k hk⟩,
   fun s d => ⟨getById_putById_self _ s d, fun k hk => getById_putById_ne _ s d k hk⟩,
   fun s c => ⟨getById_putById_self _ s c, fun k hk => getById_putById_ne _ s c k hk⟩⟩

/-- Witness for C6 at a concrete store. -/
theorem claim_C6_witness :
    (InMemoryLibraryRepository.get_by_id
        (InMemoryLibraryRepository.create [exLib] exLibB).1 exLibB.id = some exLibB ∧
      ∀ k, k ≠ exLibB.id → InMemoryLibraryRepository.get_by_id
        (InMemoryLibraryRepository.create [exLib] exLibB).1 k =
        InMemoryLibraryRepository.get_by_id [exLib] k) ∧
    ((2 : Id) ≠ exLibB.id → InMemoryLibraryRepository.get_by_id
      (InMemoryLibraryRepository.create [exLib] exLibB).1 2 =
      InMemoryLibraryRepository.get_by_id [exLib] 2) :=
  ⟨claim_C6_create_overwrites.1 [exLib] exLibB,
   (claim_C6_create_overwrites.1 [exLib] exLibB).2 2⟩

/-- Counterexample to C6 as stated: creating a library whose identifier is
already present succeeds and replaces the stored entity (the claim requires
a `Conflict` failure leaving the stored entity unchanged). -/
theorem claim_C6_counterexample :
    InMemoryLibraryRepository.get_by_id
      (InMemoryLibraryRepository.create [exLib] exLibB).1 1 = some exLibB ∧
    exLibB ≠ exLib := by
  refine ⟨rfl, ?_⟩
  intro h
  exact absurd (congrArg Library.name h) (by decide)

/-- C7 (amended): `update` on each store is an unconditional dict insert — it
fully replaces the stored value when the identifier is present and silently
inserts when it is absent (no `NotFound` is raised); other identifiers are
unchanged. -/
theorem claim_C7_update_upserts :
    (∀ (s : List Library) (l : Library),
      InMemoryLibraryRepository.get_by_id (InMemoryLibraryRepository.update s l).1
          l.id = some l ∧
      ∀ k, k ≠ l.id → InMemoryLibraryRepository.get_by_id
        (InMemoryLibraryRepository.update s l).1 k =
        InMemoryLibraryRepository.get_by_id s k) ∧
    (∀ (s : List Document) (d : Document),
      InMemoryDocumentRepository.get_by_id (InMemoryDocumentRepository.update s d).1
          d.id = some d ∧
      ∀ k, k ≠ d.id → InMemoryDocumentRepository.get_by_id
        (InMemoryDocumentRepository.update s d).1 k =
        InMemoryDocumentRepository.get_by_id s k) ∧
    (∀ (s : List Chunk) (c : Chunk),
      InMemoryChunkRepository.get_by_id (InMemoryChunkRepository.update s c).1
          c.id = some c ∧
      ∀ k, k ≠ c.id → InMemoryChunkRepository.get_by_id
        (InMemoryChunkRepository.update s c).1 k =
        InMemoryChunkRepository.get_by_id s k) :=
  ⟨fun s l => ⟨getById_putById_self _ s l, fun k hk => getById_putById_ne _ s l k hk⟩,
   fun s d => ⟨getById_putById_self _ s d, fun k hk => getById_putById_ne _ s d k hk⟩,
   fun s c => ⟨getById_putById_self _ s c, fun k hk => getById_putById_ne _ s c k hk⟩⟩

/-- Witness for C7 at a concrete store. -/
theorem claim_C7_witness :
    (InMemoryDocumentRepository.get_by_id
        (InMemoryDocumentRepository.update [exDoc] exDoc).1 exDoc.id = some exDoc ∧
      ∀ k, k ≠ exDoc.id → InMemoryDocumentRepository.get_by_id
        (InMemoryDocumentRepository.update [exDoc] exDoc).1 k =
        InMemoryDocumentRepository.get_by_id [exDoc] k) ∧
    ((7 : Id) ≠ exDoc.id → InMemoryDocumentRepository.get_by_id
      (InMemoryDocumentRepository.update [exDoc] exDoc).1 7 =
      InMemoryDocumentRepository.get_by_id [exDoc] 7) :=
  ⟨claim_C7_update_upserts.2.1 [exDoc] exDoc,
   (claim_C7_update_upserts.2.1 [exDoc] exDoc).2 7⟩

/-- Counterexample to C7 as stated: updating a library whose identifier is
absent from the (empty) store succeeds and inserts it (the claim requires a
`NotFound` failure). -/
theorem claim_C7_counterexample :
    InMemoryLibraryRepository.get_by_id ([] : List Library) 1 = none ∧
    InMemoryLibraryRepository.get_by_id
      (InMemoryLibraryRepository.update ([] : List Library) exLib).1 1 = some exLib :=
  ⟨rfl, rfl⟩

/-- C8 (amended): `update_document_in_library` and `update_library` apply
partial-field patch semantics — only fields supplied as non-`None` overwrite
stored values, omitted fields (including the identifier, child-id lists and
back-references) are preserved, and a supplied metadata mapping — including
an explicit empty one — replaces the stored metadata wholesale; an explicit
JSON `null` metadata parses to `None`, indistinguishable from omission, and
therefore leaves the stored metadata unchanged. -/
theorem claim_C8_patch_semantics :
    (∀ (db : DB) (library_id document_id : Id) (document : Document) (lib : Library)
        (request : UpdateDocumentRequest),
      InMemoryLibraryRepository.get_by_id db.libraries library_id = some lib →
      InMemoryDocumentRepository.get_by_id db.documents document_id = some document →
      document.library_id = some library_id →
      update_document_in_library db library_id document_id request =
        ({ db with documents := (putById Document.id db.documents
            (patchDocument document request)) }, .ok (patchDocument document request)) ∧
      (patchDocument document request).id = document.id ∧
      (patchDocument document request).chunk_ids = document.chunk_ids ∧
      (patchDocument document request).library_id = document.library_id ∧
      (patchDocument document request).title = request.title.getD document.title ∧
      (patchDocument document request).metadata = request.metadata.getD document.metadata ∧
      InMemoryDocumentRepository.get_by_id
        (update_document_in_library db library_id document_id request).1.documents
        document_id = some (patchDocument document request)) ∧
    (∀ (db : DB) (library_id : Id) (library : Library)
        (request : UpdateLibraryRequest),
      InMemoryLibraryRepository.get_by_id db.libraries library_id = some library →
      update_library db library_id request =
        ({ db with libraries := (putById Library.id db.libraries
            (patchLibrary library request)) }, .ok (patchLibrary library request)) ∧
      (patchLibrary library request).id = library.id ∧
      (patchLibrary library request).document_ids = library.document_ids ∧
      (patchLibrary library request).name = request.name.getD library.name ∧
      (patchLibrary library request).metadata = request.metadata.getD library.metadata ∧
      InMemoryLibraryRepository.get_by_id
        (update_library db library_id request).1.libraries library_id =
        some (patchLibrary library request)) := by
  constructor
  · intro db library_id document_id document lib request hlib hdoc hbl
    have heq : update_document_in_library db library_id document_id request =
        ({ db with documents := (putById Document.id db.documents
            (patchDocument document request)) }, .ok (patchDocument document request)) := by
      rw [update_document_in_library, hlib, hdoc]
      simp only [hbl, ne_eq, not_true_eq_false, if_false, reduceIte,
        InMemoryDocumentRepository.update]
    have hfs := patchDocument_fields document request
    have hid : document.id = document_id := (getById_eq_some hdoc).2
    refine ⟨heq, hfs.1, hfs.2.1, hfs.2.2.1, hfs.2.2.2.1, hfs.2.2.2.2.2, ?_⟩
    rw [heq]
    have := getById_putById_self Document.id db.documents (patchDocument document request)
    rwa [hfs.1, hid] at this
  · intro db library_id library request hlib
    have heq : update_library db library_id request =
        ({ db with libraries := (putById Library.id db.libraries
            (patchLibrary library request)) }, .ok (patchLibrary library request)) := by
      rw [update_library, hlib]
      simp only [InMemoryLibraryRepository.update]
    have hfs := patchLibrary_fields library request
    have hid : library.id = library_id := (getById_eq_some hlib).2
    refine ⟨heq, hfs.1, hfs.2.1, hfs.2.2.1, hfs.2.2.2.2, ?_⟩
    rw [heq]
    have := getById_putById_self Library.id db.libraries (patchLibrary library request)
    rwa [hfs.1, hid] at this

/-- Witness for C8: patching the example document with a new title and an
explicit empty metadata mapping, and the example library with a new name. -/
theorem claim_C8_witness :
    (update_document_in_library exDB 1 2
        { title := some "T2", content := none, metadata := some [] } =
      ({ exDB with documents := (putById Document.id exDB.documents
          (patchDocument exDoc
            { title := some "T2", content := none, metadata := some [] })) },
        .ok (patchDocument exDoc
          { title := some "T2", content := none, metadata := some [] })) ∧
      (patchDocument exDoc
        { title := some "T2", content := none, metadata := some [] }).id = exDoc.id ∧
      (patchDocument exDoc
        { title := some "T2", content := none, metadata := some [] }).chunk_ids =
          exDoc.chunk_ids ∧
      (patchDocument exDoc
        { title := some "T2", content := none, metadata := some [] }).library_id =
          exDoc.library_id ∧
      (patchDocument exDoc
        { title := some "T2", content := none, metadata := some [] }).title =
          (some "T2").getD exDoc.title ∧
      (patchDocument exDoc
        { title := some "T2", content := none, metadata := some [] }).metadata =
          (some []).getD exDoc.metadata ∧
      InMemoryDocumentRepository.get_by_id
        (update_document_in_library exDB 1 2
          { title := some "T2", content := none, metadata := some [] }).1.documents 2 =
        some (patchDocument exDoc
          { title := some "T2", content := none, metadata := some [] })) ∧
    (update_library exDB 1 { name := some "N2", description := none, metadata := none } =
      ({ exDB with libraries := (putById Library.id exDB.libraries
          (patchLibrary exLib
            { name := some "N2", description := none, metadata := none })) },
        .ok (patchLibrary exLib
          { name := some "N2", description := none, metadata := none })) ∧
      (patchLibrary exLib
        { name := some "N2", description := none, metadata := none }).id = exLib.id ∧
      (patchLibrary exLib
        { name := some "N2", description := none, metadata := none }).document_ids =
          exLib.document_ids ∧
      (patchLibrary exLib
        { name := some "N2", description := none, metadata := none }).name =
          (some "N2").getD exLib.name ∧
      (patchLibrary exLib
        { name := some "N2", description := none, metadata := none }).metadata =
          (none : Option Metadata).getD exLib.metadata ∧
      InMemoryLibraryRepository.get_by_id
        (update_library exDB 1
          { name := some "N2", description := none, metadata := none }).1.libraries 1 =
        some (patchLibrary exLib
          { name := some "N2", description := none, metadata := none })) :=
  ⟨claim_C8_patch_semantics.1 exDB 1 2 exDoc exLib
      { title := some "T2", content := none, metadata := some [] } rfl rfl rfl,
   claim_C8_patch_semantics.2 exDB 1 exLib
      { name := some "N2", description := none, metadata := none } rfl⟩

/-- Counterexample to C8 as stated: an explicit `null` metadata (parsed to
`None`, exactly like an omitted field) does not replace the stored metadata
mapping — the document keeps its old non-empty metadata instead of ending
with an empty one. -/
theorem claim_C8_counterexample :
    InMemoryDocumentRepository.get_by_id
      (update_document_in_library exDB 1 2
        { title := none, content := none, metadata := none }).1.documents 2 =
      some exDoc ∧
    exDoc.metadata = [("k", "v")] ∧ ([("k", "v")] : Metadata) ≠ [] := by
  refine ⟨rfl, rfl, ?_⟩
  intro h
  exact List.cons_ne_nil _ _ h

/-- C10: updating a chunk through the library-scoped endpoint keeps the
chunk's identifier and its original `document_id` (whatever `document_id`
the request supplies), while vector and metadata are replaced wholesale by
the request's values. -/
theorem claim_C10_update_chunk_frame (db : DB) (library_id chunk_id did : Id)
    (lib : Library) (chunk : Chunk) (document : Document) (request : CreateChunkRequest)
    (hlib : InMemoryLibraryRepository.get_by_id db.libraries library_id = some lib)
    (hch : InMemoryChunkRepository.get_by_id db.chunks chunk_id = some chunk)
    (hdid : chunk.document_id = some did)
    (hdoc : InMemoryDocumentRepository.get_by_id db.documents did = some document)
    (hbl : document.library_id = some library_id)
    (hvec : request.vector ≠ []) :
    ∃ c', update_chunk_in_library db library_id chunk_id request =
        ({ db with chunks := putById Chunk.id db.chunks c' }, .ok c') ∧
      c'.id = chunk_id ∧
      c'.document_id = chunk.document_id ∧
      c'.vector = request.vector ∧
      c'.metadata = request.metadata ∧
      InMemoryChunkRepository.get_by_id
        (update_chunk_in_library db library_id chunk_id request).1.chunks chunk_id =
        some c' := by
  refine ⟨Chunk.mk chunk_id request.vector request.metadata chunk.document_id, ?_⟩
  have heq : update_chunk_in_library db library_id chunk_id request =
      ({ db with chunks := (putById Chunk.id db.chunks
          (Chunk.mk chunk_id request.vector request.metadata chunk.document_id)) },
        .ok (Chunk.mk chunk_id request.vector request.metadata chunk.document_id)) := by
    simp only [update_chunk_in_library, hlib, hch, hdid, hdoc, hbl, ne_eq,
      not_true_eq_false, if_false, reduceIte, Chunk.make, hvec,
      InMemoryChunkRepository.update]
  refine ⟨heq, rfl, hdid.symm ▸ rfl, rfl, rfl, ?_⟩
  rw [heq]
  exact getById_putById_self Chunk.id db.chunks _

/-- Witness for C10: updating chunk 3 of the example database with a request
that supplies a different `document_id`. -/
theorem claim_C10_witness :
    ∃ c', update_chunk_in_library exDB 1 3
        { vector := [9], metadata := [("a", "b")], document_id := some 99 } =
        ({ exDB with chunks := putById Chunk.id exDB.chunks c' }, .ok c') ∧
      c'.id = 3 ∧
      c'.document_id = exChunkA.document_id ∧
      c'.vector = [9] ∧
      c'.metadata = [("a", "b")] ∧
      InMemoryChunkRepository.get_by_id
        (update_chunk_in_library exDB 1 3
          { vector := [9], metadata := [("a", "b")], document_id := some 99 }).1.chunks 3 =
        some c' :=
  claim_C10_update_chunk_frame exDB 1 3 2 exLib exChunkA exDoc
    { vector := [9], metadata := [("a", "b")], document_id := some 99 }
    rfl rfl rfl rfl rfl (List.cons_ne_nil 9 [])

end VectorDB
